import Mathlib

/-!
Verification of the WindBorne balloon-constellation analytics engine.

The JavaScript sources are shallowly embedded:

* Functions that perform only comparisons, counting and exact rational
  arithmetic (`getRegion`, `calculateRegionalDistribution`, `detectClusters`,
  `calculateDensity`, `getDensityStats`, `validateBalloonData`,
  `processConstellationHistory`) are embedded over `ℚ` (every JavaScript
  float is a rational, and these functions perform no inexact operation),
  keeping them executable and decidable.
* Functions built on `Math.sin`, `Math.cos`, `Math.sqrt`, `Math.atan2`
  (`calculateDistance`, `calculateBearing`, `detectEddies`,
  `detectShearLayers`, `calculateSegmentSpeed`, `calculateDriftError`,
  `calculateTrackStats`) are embedded over `ℝ`, the usual idealisation of
  IEEE doubles.
* JavaScript `Set`s of ids become `List ℕ` with membership tests; objects
  used as insertion-ordered maps become association lists.
* `Date.now()` timestamps are dropped from the embedded records: no claim
  mentions them.
-/

namespace AnalyticsQ

/-- Positions as carried by `balloon.currentPosition` in `analytics.js`
(`lat`, `lon` in degrees, `alt` in meters). -/
structure QPos where
  lat : ℚ
  lon : ℚ
  alt : ℚ
deriving DecidableEq

/-- A balloon record as consumed by the spatial analytics: an id and a
current position.  The JavaScript id is the string `balloon-{index}`; the
bijection string-id ↔ index lets `ℕ` stand for it. -/
structure QBalloon where
  id : ℕ
  currentPosition : QPos
deriving DecidableEq

/-- The fixed region tags of `analytics.js` (`getRegion` return values). -/
inductive Region where
  | pacific
  | atlantic
  | northAmerica
  | europe
  | asia
  | indian
  | other
deriving DecidableEq

/-- Embedding of `getRegion` (analytics.js:69-86): nested rectangular rules. -/
def getRegion (p : QPos) : Region :=
  if -180 ≤ p.lon ∧ p.lon ≤ -70 then
    if 15 ≤ p.lat ∧ p.lat ≤ 75 then .northAmerica else .atlantic
  else if -70 ≤ p.lon ∧ p.lon ≤ 20 then .atlantic
  else if 20 ≤ p.lon ∧ p.lon ≤ 60 then
    if 35 ≤ p.lat ∧ p.lat ≤ 75 then .europe
    else if 0 ≤ p.lat ∧ p.lat ≤ 35 then .other
    else .indian
  else if 60 ≤ p.lon ∧ p.lon ≤ 150 then
    if 10 ≤ p.lat then .asia else .indian
  else .pacific

/-- The counters object built by `calculateRegionalDistribution`. -/
structure Regions where
  northernHem : ℕ
  southernHem : ℕ
  pacific : ℕ
  atlantic : ℕ
  indian : ℕ
  northAmerica : ℕ
  europe : ℕ
  asia : ℕ
  other : ℕ
deriving DecidableEq

/-- The all-zero counters `calculateRegionalDistribution` starts from. -/
def Regions.init : Regions := ⟨0, 0, 0, 0, 0, 0, 0, 0, 0⟩

/-- One `forEach` step of `calculateRegionalDistribution` (analytics.js:109-132):
the hemisphere counter and then the same nested rectangle rules as
`getRegion`, incrementing one region counter. -/
def regionStep (r : Regions) (b : QBalloon) : Regions :=
  let lat := b.currentPosition.lat
  let lon := b.currentPosition.lon
  let r := if 0 ≤ lat then { r with northernHem := r.northernHem + 1 }
           else { r with southernHem := r.southernHem + 1 }
  if -180 ≤ lon ∧ lon ≤ -70 then
    if 15 ≤ lat ∧ lat ≤ 75 then { r with northAmerica := r.northAmerica + 1 }
    else { r with atlantic := r.atlantic + 1 }
  else if -70 ≤ lon ∧ lon ≤ 20 then { r with atlantic := r.atlantic + 1 }
  else if 20 ≤ lon ∧ lon ≤ 60 then
    if 35 ≤ lat ∧ lat ≤ 75 then { r with europe := r.europe + 1 }
    else if 0 ≤ lat ∧ lat ≤ 35 then { r with other := r.other + 1 }
    else { r with indian := r.indian + 1 }
  else if 60 ≤ lon ∧ lon ≤ 150 then
    if 10 ≤ lat then { r with asia := r.asia + 1 }
    else { r with indian := r.indian + 1 }
  else { r with pacific := r.pacific + 1 }

/-- Embedding of `calculateRegionalDistribution` (analytics.js:96-135). -/
def calculateRegionalDistribution (balloons : List QBalloon) : Regions :=
  balloons.foldl regionStep Regions.init

/-- The centroid object of `calculateCenterPoint` (analytics.js:219-229). -/
structure Center where
  lat : ℚ
  lon : ℚ
deriving DecidableEq

/-- Embedding of `calculateCenterPoint`: arithmetic mean of member
positions (division by the member count; clusters are nonempty). -/
def calculateCenterPoint (balloons : List QBalloon) : Center :=
  let sumLat := (balloons.map (fun b => b.currentPosition.lat)).sum
  let sumLon := (balloons.map (fun b => b.currentPosition.lon)).sum
  ⟨sumLat / balloons.length, sumLon / balloons.length⟩

/-- A cluster as pushed by `detectClusters` (analytics.js:207-211). -/
structure Cluster where
  center : Center
  count : ℕ
  balloons : List QBalloon
deriving DecidableEq

/-- Embedding of the inner `getNeighbors` closure of `detectClusters`
(analytics.js:151-161).  `near b other` stands for the test
`calculate3DDistance(b.currentPosition, other.currentPosition,
altitudeWeight) <= eps`: keeping it an arbitrary boolean relation covers
every `eps`/`altitudeWeight` parameter setting at once. -/
def getNeighbors (near : QBalloon → QBalloon → Bool)
    (balloons : List QBalloon) (b : QBalloon) : List QBalloon :=
  balloons.filter (fun other => other.id ≠ b.id && near b other)

/-- The mutable state of `expandCluster` (analytics.js:164-192): the two
`Set`s of ids and the cluster being grown. -/
structure ExpSt where
  visited : List ℕ
  clustered : List ℕ
  cluster : List QBalloon

/-- Embedding of the `while (queue.length > 0)` loop of `expandCluster`
(analytics.js:170-189).  `fuel` bounds the number of iterations; the JS
loop shifts one element per iteration and enqueues the neighbor list of
each newly visited core point at most once, so any fuel at least
`(balloons.length + 1)^2` lets the loop drain its queue. -/
def expandLoop (near : QBalloon → QBalloon → Bool) (balloons : List QBalloon)
    (minPts : ℕ) : ℕ → List QBalloon → ExpSt → ExpSt
  | 0, _, st => st
  | _ + 1, [], st => st
  | fuel + 1, current :: queue, st =>
    if current.id ∈ st.clustered then
      expandLoop near balloons minPts fuel queue st
    else
      let clustered := current.id :: st.clustered
      let cluster := st.cluster ++ [current]
      if current.id ∈ st.visited then
        expandLoop near balloons minPts fuel queue ⟨st.visited, clustered, cluster⟩
      else
        let visited := current.id :: st.visited
        let currentNeighbors := getNeighbors near balloons current
        if minPts ≤ currentNeighbors.length then
          expandLoop near balloons minPts fuel (queue ++ currentNeighbors)
            ⟨visited, clustered, cluster⟩
        else
          expandLoop near balloons minPts fuel queue ⟨visited, clustered, cluster⟩

/-- The mutable state of the main DBSCAN loop (analytics.js:146-148, 195-214). -/
structure DetSt where
  visited : List ℕ
  clustered : List ℕ
  clusters : List Cluster

/-- Embedding of the main `balloons.forEach` loop of `detectClusters`
(analytics.js:195-214): seed each unvisited balloon, expand core points,
keep clusters reaching `minPts` members. -/
def detectLoop (near : QBalloon → QBalloon → Bool) (balloons : List QBalloon)
    (minPts : ℕ) (fuel : ℕ) : List QBalloon → DetSt → DetSt
  | [], st => st
  | b :: rest, st =>
    if b.id ∈ st.visited then detectLoop near balloons minPts fuel rest st
    else
      let visited := b.id :: st.visited
      let neighbors := getNeighbors near balloons b
      if minPts ≤ neighbors.length then
        let est := expandLoop near balloons minPts fuel neighbors
          ⟨visited, b.id :: st.clustered, [b]⟩
        if minPts ≤ est.cluster.length then
          detectLoop near balloons minPts fuel rest
            ⟨est.visited, est.clustered,
              st.clusters ++ [⟨calculateCenterPoint est.cluster, est.cluster.length, est.cluster⟩]⟩
        else
          detectLoop near balloons minPts fuel rest ⟨est.visited, est.clustered, st.clusters⟩
      else
        detectLoop near balloons minPts fuel rest ⟨visited, st.clustered, st.clusters⟩

/-- Embedding of `detectClusters` (analytics.js:139-217) with the distance
test abstracted as `near` (see `getNeighbors`). -/
def detectClusters (near : QBalloon → QBalloon → Bool) (minPts : ℕ)
    (balloons : List QBalloon) : List Cluster :=
  (detectLoop near balloons minPts ((balloons.length + 1) * (balloons.length + 1))
    balloons ⟨[], [], []⟩).clusters

/-- A density-grid cell (analytics.js:312-313). -/
structure Cell where
  lat : ℚ
  lon : ℚ
  count : ℕ
deriving DecidableEq

/-- One `forEach` step of `calculateDensity`: find the cell keyed by
`(gridLat, gridLon)` in insertion order, create it with count 0 if
missing, then increment it — exactly the `if (!grid[key])` / `count++`
body at analytics.js:312-315. -/
def bumpCell (glat glon : ℚ) : List Cell → List Cell
  | [] => [⟨glat, glon, 1⟩]
  | c :: rest =>
    if c.lat = glat ∧ c.lon = glon then ⟨c.lat, c.lon, c.count + 1⟩ :: rest
    else c :: bumpCell glat glon rest

/-- Embedding of `calculateDensity` (analytics.js:303-319): bin each
balloon into the cell `(floor(lat/gridSize)*gridSize,
floor(lon/gridSize)*gridSize)`; `Object.values` returns cells in
insertion order, which the association list preserves. -/
def calculateDensity (balloons : List QBalloon) (gridSize : ℚ) : List Cell :=
  balloons.foldl
    (fun grid b =>
      let gridLat := (⌊b.currentPosition.lat / gridSize⌋ : ℚ) * gridSize
      let gridLon := (⌊b.currentPosition.lon / gridSize⌋ : ℚ) * gridSize
      bumpCell gridLat gridLon grid)
    []

/-- Insertion into a descending-sorted list, for the JS
`sort((a, b) => b - a)` on the cell counts. -/
def insertDesc (n : ℕ) : List ℕ → List ℕ
  | [] => [n]
  | m :: rest => if m ≤ n then n :: m :: rest else m :: insertDesc n rest

/-- Descending sort of the counts (`analytics.js:332`). -/
def sortDesc (l : List ℕ) : List ℕ := l.foldr insertDesc []

/-- The statistics object of `getDensityStats` (analytics.js:321-341). -/
structure DensityStats where
  total : ℕ
  cells : ℕ
  avgPerCell : ℚ
  maxInCell : ℕ
  hotspots : ℕ
deriving DecidableEq

/-- The invariant of the expand-loop state, relative to the set `C0` of ids
already clustered before this expansion started (a verification artifact,
not part of the source): the clustered ids are distinct, visited,
drawn from the input, contain every id of the growing cluster; the growing
cluster has distinct ids, none of them in `C0`; and `C0` survives. -/
def ExpInv (balloons : List QBalloon) (C0 : List ℕ) (st : ExpSt) : Prop :=
  st.clustered.Nodup ∧
  (∀ i ∈ st.clustered, i ∈ st.visited) ∧
  (∀ i ∈ st.clustered, i ∈ balloons.map QBalloon.id) ∧
  (∀ b ∈ st.cluster, b.id ∈ st.clustered) ∧
  (st.cluster.map QBalloon.id).Nodup ∧
  (∀ i ∈ C0, i ∈ st.clustered) ∧
  (∀ b ∈ st.cluster, b.id ∉ C0)

/-- The invariant of the main DBSCAN loop state (a verification artifact):
clustered ids are distinct, visited and drawn from the input; the ids of
all cluster members together are distinct and all clustered; each stored
count is its member-list length. -/
def DetInv (balloons : List QBalloon) (st : DetSt) : Prop :=
  st.clustered.Nodup ∧
  (∀ i ∈ st.clustered, i ∈ st.visited) ∧
  (∀ i ∈ st.clustered, i ∈ balloons.map QBalloon.id) ∧
  (st.clusters.flatMap (fun c => c.balloons.map QBalloon.id)).Nodup ∧
  (∀ i ∈ st.clusters.flatMap (fun c => c.balloons.map QBalloon.id), i ∈ st.clustered) ∧
  (∀ c ∈ st.clusters, c.count = c.balloons.length)

/-- Embedding of `getDensityStats` (analytics.js:321-341). -/
def getDensityStats (densityGrid : List Cell) : DensityStats :=
  if densityGrid.isEmpty then ⟨0, 0, 0, 0, 0⟩
  else
    let counts := sortDesc (densityGrid.map Cell.count)
    { total := counts.sum
      cells := densityGrid.length
      avgPerCell := (counts.sum : ℚ) / (densityGrid.length : ℚ)
      maxInCell := counts.headD 0
      hotspots := (densityGrid.filter (fun cell => 20 ≤ cell.count)).length }

end AnalyticsQ

namespace ApiService

/-- A JSON-ish JavaScript value as far as the validator inspects it:
numbers (JS floats are rationals), strings, arrays, booleans and null.
String contents never matter to the validator, so strings carry no data. -/
inductive JVal where
  | num (q : ℚ)
  | str
  | arr (l : List JVal)
  | boolean (b : Bool)
  | nullv

/-- A validated balloon as built at api.js (`src/unnamed/part_003:57-65`):
original array index, coordinates, altitude converted km → meters, and the
hour offset.  The `timestamp` field (derived from `Date.now()`) is dropped. -/
structure VBalloon where
  index : ℕ
  lat : ℚ
  lon : ℚ
  alt : ℚ
  hour : ℤ
deriving DecidableEq

/-- The object `validateBalloonData` returns for a valid payload
(`fetchedAt` dropped: it is `Date.now()`). -/
structure HourResult where
  hour : ℤ
  balloons : List VBalloon
deriving DecidableEq

/-- The per-entry body of the `data.map((entry, index) => ...)` at
api.js (`src/unnamed/part_003:40-66`): entry must be an array of length
at least 3 whose first three elements are numbers, with lat in [-90, 90]
and lon in [-180, 180]; otherwise `null` (dropped by `.filter(Boolean)`). -/
def validateEntry (hour : ℤ) (index : ℕ) : JVal → Option VBalloon
  | .arr (a :: b :: c :: _) =>
    match a, b, c with
    | .num lat, .num lon, .num altKm =>
      if lat < -90 ∨ lat > 90 ∨ lon < -180 ∨ lon > 180 then none
      else some ⟨index, lat, lon, altKm * 1000, hour⟩
    | _, _, _ => none
  | _ => none

/-- Embedding of `validateBalloonData` (`src/unnamed/part_003:34-74`,
identical in `src/unnamed/part_004:38-78`): `null` for a non-array
payload, otherwise map each entry with its index and drop the invalid
ones. -/
def validateBalloonData (data : JVal) (hour : ℤ) : Option HourResult :=
  match data with
  | .arr entries =>
    some ⟨hour, entries.enum.filterMap (fun p => validateEntry hour p.1 p.2)⟩
  | _ => none

end ApiService

namespace TrajectoryQ

/-- A raw balloon inside one hourly snapshot, as produced by the
validator: positional `index` (used as the track key since the validated
records carry no `id` field), coordinates and altitude in meters. -/
structure RawBalloon where
  index : ℕ
  lat : ℚ
  lon : ℚ
  alt : ℚ
deriving DecidableEq

/-- One hourly snapshot handed to `processConstellationHistory`
(`{ hour, balloons }`). -/
structure HourData where
  hour : ℕ
  balloons : List RawBalloon
deriving DecidableEq

/-- A stored track point (trajectoryEngine.js:39-44): the balloon fields
plus the `hourIndex` tag (24 = 24h ago, 0 = now, 25 = synthetic future);
the ISO `timestamp` (derived from `Date.now()`) is dropped. -/
structure TEPoint where
  index : ℕ
  lat : ℚ
  lon : ℚ
  alt : ℚ
  hourIndex : ℕ
deriving DecidableEq

/-- Appending one point to the insertion-ordered map of tracks
(`tracks[balloonId].push(...)`, creating the entry on first use). -/
def pushPoint (key : ℕ) (p : TEPoint) : List (ℕ × List TEPoint) → List (ℕ × List TEPoint)
  | [] => [(key, [p])]
  | (k, ps) :: rest =>
    if k = key then (k, ps ++ [p]) :: rest else (k, ps) :: pushPoint key p rest

/-- The JS ascending stable sort `track.sort((a, b) => a.hourIndex - b.hourIndex)`
(trajectoryEngine.js:67). -/
def sortTrack (track : List TEPoint) : List TEPoint :=
  track.insertionSort (fun a b => a.hourIndex ≤ b.hourIndex)

/-- Embedding of `processConstellationHistory` (trajectoryEngine.js:18-71):
walk hours 24 down to 0 pushing points tagged `hourIndex = hour`, append a
duplicate of the hour-0 position tagged `hourIndex = 25` for every track
that exists, then sort each track ascending by `hourIndex`. -/
def processConstellationHistory (all24HoursData : List HourData) : List (ℕ × List TEPoint) :=
  let hoursDescending := (List.range 25).reverse
  let tracks := hoursDescending.foldl
    (fun tracks hour =>
      match all24HoursData.find? (fun d => d.hour = hour) with
      | none => tracks
      | some hourData =>
        hourData.balloons.foldl
          (fun tr b => pushPoint b.index ⟨b.index, b.lat, b.lon, b.alt, hour⟩ tr)
          tracks)
    ([] : List (ℕ × List TEPoint))
  let tracks :=
    match all24HoursData.find? (fun d => d.hour = 0) with
    | none => tracks
    | some hour0Data =>
      hour0Data.balloons.foldl
        (fun tr (b : RawBalloon) =>
          if (tr.lookup b.index).isSome then
            pushPoint b.index ⟨b.index, b.lat, b.lon, b.alt, 25⟩ tr
          else tr)
        tracks
  tracks.map (fun (kt : ℕ × List TEPoint) => (kt.1, sortTrack kt.2))

end TrajectoryQ

section RealDefs

attribute [local instance] Classical.propDecidable

open Real

noncomputable section

/-- The `toRad` helper of analytics.js:31. -/
def toRad (degrees : ℝ) : ℝ := degrees * π / 180

/-- JavaScript `Math.atan2(y, x)` on real arguments (the signed-zero
distinctions of IEEE arithmetic do not exist in `ℝ`; none of the uses
below depends on them). -/
def atan2 (y x : ℝ) : ℝ :=
  if 0 < x then Real.arctan (y / x)
  else if x < 0 then
    if 0 ≤ y then Real.arctan (y / x) + π else Real.arctan (y / x) - π
  else
    if 0 < y then π / 2 else if y < 0 then -(π / 2) else 0

/-- Truncation toward zero, as JavaScript `%` uses. -/
def rTrunc (r : ℝ) : ℤ := if 0 ≤ r then ⌊r⌋ else -⌊-r⌋

/-- JavaScript `a % b`: the remainder with the sign of the dividend. -/
def jsMod (a b : ℝ) : ℝ := a - b * rTrunc (a / b)

/-- JavaScript `Math.round` (half-up). -/
def jsRound (x : ℝ) : ℤ := ⌊x + 1 / 2⌋

namespace AnalyticsR

/-- A position (`lat`, `lon` degrees, `alt` meters) over `ℝ` for the
trigonometric analytics. -/
structure Position where
  lat : ℝ
  lon : ℝ
  alt : ℝ

/-- A balloon with id and current position, over `ℝ`. -/
structure Balloon where
  id : ℕ
  currentPosition : Position

/-- Embedding of the haversine `calculateDistance` (analytics.js:2-13). -/
def calculateDistance (pos1 pos2 : Position) : ℝ :=
  let dLat := toRad (pos2.lat - pos1.lat)
  let dLon := toRad (pos2.lon - pos1.lon)
  let lat1 := toRad pos1.lat
  let lat2 := toRad pos2.lat
  let a := Real.sin (dLat / 2) * Real.sin (dLat / 2) +
    Real.sin (dLon / 2) * Real.sin (dLon / 2) * Real.cos lat1 * Real.cos lat2
  let c := 2 * atan2 (Real.sqrt a) (Real.sqrt (1 - a))
  6371 * c

/-- Embedding of `calculateBearing` (analytics.js:34-45). -/
def calculateBearing (pos1 pos2 : Position) : ℝ :=
  let dLon := toRad (pos2.lon - pos1.lon)
  let lat1 := toRad pos1.lat
  let lat2 := toRad pos2.lat
  let y := Real.sin dLon * Real.cos lat2
  let x := Real.cos lat1 * Real.sin lat2 - Real.sin lat1 * Real.cos lat2 * Real.cos dLon
  let bearing := atan2 y x
  jsMod (bearing * 180 / π + 360) 360

/-- A flagged shear-layer pair (analytics.js:602-608). -/
structure ShearLayer where
  balloonA : ℕ
  balloonB : ℕ
  distance : ℤ
  altitudeDiff : ℤ
  bearingDiff : ℤ

/-- Embedding of `detectShearLayers` (analytics.js:572-615).  The
approximate-previous-position object `{lat: pos.lat - 0.1, lon: pos.lon}`
carries no altitude in the JS source; `calculateBearing` never reads
altitude, so the embedded record reuses the balloon's. -/
def detectShearLayers (balloons : List Balloon) : List ShearLayer :=
  balloons.flatMap (fun balloonA =>
    balloons.flatMap (fun balloonB =>
      if balloonA.id = balloonB.id then []
      else
        let posA := balloonA.currentPosition
        let posB := balloonB.currentPosition
        let horizontalDist := calculateDistance posA posB
        let verticalDist := |posA.alt - posB.alt|
        if horizontalDist < 50 ∧ verticalDist > 2000 then
          let bearingA := calculateBearing ⟨posA.lat - 0.1, posA.lon, posA.alt⟩ posA
          let bearingB := calculateBearing ⟨posB.lat - 0.1, posB.lon, posB.alt⟩ posB
          let bearingDiff := |bearingA - bearingB|
          let minBearingDiff := min bearingDiff (360 - bearingDiff)
          if minBearingDiff > 90 then
            [⟨balloonA.id, balloonB.id, jsRound horizontalDist,
              jsRound (verticalDist / 1000), jsRound minBearingDiff⟩]
          else []
        else []))

/-- The heading of segment `i` of a track: `calculateBearing(track[i-1], track[i])`
(analytics.js:490). -/
def eddyHeading (track : List Position) (i : ℕ) : ℝ :=
  calculateBearing (track.getD (i - 1) ⟨0, 0, 0⟩) (track.getD i ⟨0, 0, 0⟩)

/-- The previous heading used at step `i` (analytics.js:491): the heading
itself at `i = 1`, else the bearing of the preceding segment. -/
def eddyPrevHeading (track : List Position) (i : ℕ) : ℝ :=
  if i = 1 then eddyHeading track i
  else calculateBearing (track.getD (i - 2) ⟨0, 0, 0⟩) (track.getD (i - 1) ⟨0, 0, 0⟩)

/-- The wrapped absolute heading change at step `i` (analytics.js:493-495). -/
def eddyDiff (track : List Position) (i : ℕ) : ℝ :=
  let headingDiff := |eddyHeading track i - eddyPrevHeading track i|
  if headingDiff > 180 then 360 - headingDiff else headingDiff

/-- One iteration of the `detectEddies` loop (analytics.js:483-501) on the
accumulator `(totalHeadingChange, directionChanges)`: skip segments moving
less than 1 km, otherwise accumulate the wrapped heading change and count
changes above 45°. -/
def eddyStep (track : List Position) (acc : ℝ × ℕ) (i : ℕ) : ℝ × ℕ :=
  if calculateDistance (track.getD (i - 1) ⟨0, 0, 0⟩) (track.getD i ⟨0, 0, 0⟩) < 1 then acc
  else (acc.1 + eddyDiff track i, acc.2 + if eddyDiff track i > 45 then 1 else 0)

/-- Embedding of `detectEddies` (analytics.js:477-505). -/
def detectEddies (track : List Position) : Bool :=
  if track.length < 6 then false
  else
    let r := ((List.range track.length).drop 1).foldl (eddyStep track) (0, 0)
    if r.1 > 360 ∨ (r.2 : ℝ) > (track.length : ℝ) * 0.6 then true else false

/-- The cumulative wrapped heading change of a track, written as a sum
over the loop indices (specification form of the first accumulator). -/
def eddyTotalChange (track : List Position) : ℝ :=
  (((List.range track.length).drop 1).map (fun i =>
    if calculateDistance (track.getD (i - 1) ⟨0, 0, 0⟩) (track.getD i ⟨0, 0, 0⟩) < 1 then 0
    else eddyDiff track i)).sum

/-- The number of segments whose direction change exceeds 45°, written as
a sum over the loop indices (specification form of the second accumulator). -/
def eddyDirectionChanges (track : List Position) : ℕ :=
  (((List.range track.length).drop 1).map (fun i =>
    if calculateDistance (track.getD (i - 1) ⟨0, 0, 0⟩) (track.getD i ⟨0, 0, 0⟩) < 1 then 0
    else if eddyDiff track i > 45 then 1 else 0)).sum

/-- A 10-point test track whose segments have exact bearings 30° or 90°
(each segment moves 90° of longitude, between the equator and latitude 60):
six direction changes of exactly 60°, total change exactly 360°. -/
def eddyCounterTrack : List Position :=
  [⟨0, 0, 0⟩, ⟨60, 90, 0⟩, ⟨0, 180, 0⟩, ⟨0, 270, 0⟩, ⟨0, 360, 0⟩,
   ⟨60, 450, 0⟩, ⟨0, 540, 0⟩, ⟨60, 630, 0⟩, ⟨0, 720, 0⟩, ⟨60, 810, 0⟩]

end AnalyticsR

namespace TrajR

/-- Embedding of the haversine `getDistance` (trajectoryEngine.js:2-11). -/
def getDistance (lat1 lon1 lat2 lon2 : ℝ) : ℝ :=
  let dLat := (lat2 - lat1) * (π / 180)
  let dLon := (lon2 - lon1) * (π / 180)
  let a := Real.sin (dLat / 2) * Real.sin (dLat / 2) +
    Real.cos (lat1 * (π / 180)) * Real.cos (lat2 * (π / 180)) *
      (Real.sin (dLon / 2) * Real.sin (dLon / 2))
  let c := 2 * atan2 (Real.sqrt a) (Real.sqrt (1 - a))
  6371 * c

/-- A trajectory point over `ℝ` with its integer hour offset. -/
structure TrackPoint where
  lat : ℝ
  lon : ℝ
  alt : ℝ
  hourIndex : ℤ

/-- Embedding of `calculateSegmentSpeed` (trajectoryEngine.js:79-84).
The JS guard `!pos1 || !pos2 || !pos1.lat || !pos2.lat` is a truthiness
test: with both points present (they always are here) it returns 0
exactly when a latitude equals 0.  `Math.abs(...) || 1` floors a zero
hour difference to 1. -/
def calculateSegmentSpeed (pos1 pos2 : TrackPoint) : ℝ :=
  if pos1.lat = 0 ∨ pos2.lat = 0 then 0
  else
    let distance := getDistance pos1.lat pos1.lon pos2.lat pos2.lon
    let timeHours : ℝ := if |pos2.hourIndex - pos1.hourIndex| = 0 then 1
      else ((|pos2.hourIndex - pos1.hourIndex| : ℤ) : ℝ)
    distance / timeHours

/-- An actual or model drift vector `{speed, direction}`. -/
structure Drift where
  speed : ℝ
  direction : ℝ

/-- The error record of `calculateDriftError`. -/
structure DriftError where
  speedError : ℝ
  directionError : ℝ
  magnitude : ℝ

/-- Embedding of `calculateDriftError` (trajectoryEngine.js:128-137).
`modelDrift?.speed || 0` reads 0 for a null model; on a present model the
`|| 0` collapses only a speed equal to 0 to 0, the identity. -/
def calculateDriftError (actualDrift : Drift) (modelDrift : Option Drift) : DriftError :=
  let modelSpeed : ℝ := match modelDrift with | none => 0 | some m => m.speed
  let modelDirection : ℝ := match modelDrift with | none => 0 | some m => m.direction
  let speedError := actualDrift.speed - modelSpeed
  let directionError := |actualDrift.direction - modelDirection|
  ⟨speedError, directionError, Real.sqrt (speedError ^ 2 + directionError ^ 2)⟩

/-- Modelled from the spec: the drift-error computation as §4.4/§7 of the
spec describes it, with a null model prediction propagated as "no
comparison available" (`none`) instead of compared against.  This is the
refinement target the code is checked against; the repository's own
`calculateDriftError` is embedded above. -/
def driftErrorSpec (actualDrift : Drift) (modelDrift : Option Drift) : Option DriftError :=
  modelDrift.map (fun m =>
    let speedError := actualDrift.speed - m.speed
    let directionError := |actualDrift.direction - m.direction|
    ⟨speedError, directionError, Real.sqrt (speedError ^ 2 + directionError ^ 2)⟩)

/-- A speed sample of `calculateTrackSpeeds` (trajectoryEngine.js:148-152). -/
structure SpeedPoint where
  hourIndex : ℤ
  speed : ℝ
  position : TrackPoint

/-- Embedding of `calculateTrackSpeeds` (trajectoryEngine.js:144-155):
one sample per consecutive pair. -/
def calculateTrackSpeeds : List TrackPoint → List SpeedPoint
  | p :: q :: rest => ⟨q.hourIndex, calculateSegmentSpeed p q, q⟩ :: calculateTrackSpeeds (q :: rest)
  | _ => []

/-- Embedding of `calculateTotalDistance` (trajectoryEngine.js:162-171):
sum of haversine distances over consecutive pairs. -/
def calculateTotalDistance : List TrackPoint → ℝ
  | p :: q :: rest => getDistance p.lat p.lon q.lat q.lon + calculateTotalDistance (q :: rest)
  | _ => 0

/-- JavaScript `Math.max(...l)` on a nonempty list (the callers guard
emptiness). -/
def spreadMax : List ℝ → ℝ
  | [] => 0
  | x :: xs => xs.foldl max x

/-- JavaScript `Math.min(...l)` on a nonempty list. -/
def spreadMin : List ℝ → ℝ
  | [] => 0
  | x :: xs => xs.foldl min x

/-- The `altitudeRange` field of the track statistics. -/
structure AltRange where
  min : ℝ
  max : ℝ

/-- The statistics object of `calculateTrackStats`. -/
structure TrackStats where
  totalDistance : ℝ
  averageSpeed : ℝ
  maxSpeed : ℝ
  minSpeed : ℝ
  altitudeRange : AltRange
  duration : ℕ

/-- Embedding of `calculateTrackStats` (trajectoryEngine.js:178-204). -/
def calculateTrackStats (track : List TrackPoint) : TrackStats :=
  if track.isEmpty then ⟨0, 0, 0, 0, ⟨0, 0⟩, 0⟩
  else
    let speeds := calculateTrackSpeeds track
    let speedValues := speeds.map SpeedPoint.speed
    { totalDistance := calculateTotalDistance track
      averageSpeed := if 0 < speedValues.length then speedValues.sum / (speedValues.length : ℝ) else 0
      maxSpeed := if 0 < speedValues.length then spreadMax speedValues else 0
      minSpeed := if 0 < speedValues.length then spreadMin speedValues else 0
      altitudeRange := ⟨spreadMin (track.map TrackPoint.alt), spreadMax (track.map TrackPoint.alt)⟩
      duration := track.length }

end TrajR

end

end RealDefs

namespace AnalyticsQ

lemma regionStep_pacific (r : Regions) (b : QBalloon) :
    (regionStep r b).pacific = r.pacific + (if getRegion b.currentPosition = Region.pacific then 1 else 0) := by
  by_cases h : (0 : ℚ) ≤ b.currentPosition.lat <;>
    simp only [regionStep, getRegion, h, if_true, if_false] <;> split_ifs <;> simp_all

lemma regionStep_atlantic (r : Regions) (b : QBalloon) :
    (regionStep r b).atlantic = r.atlantic + (if getRegion b.currentPosition = Region.atlantic then 1 else 0) := by
  by_cases h : (0 : ℚ) ≤ b.currentPosition.lat <;>
    simp only [regionStep, getRegion, h, if_true, if_false] <;> split_ifs <;> simp_all

lemma regionStep_indian (r : Regions) (b : QBalloon) :
    (regionStep r b).indian = r.indian + (if getRegion b.currentPosition = Region.indian then 1 else 0) := by
  by_cases h : (0 : ℚ) ≤ b.currentPosition.lat <;>
    simp only [regionStep, getRegion, h, if_true, if_false] <;> split_ifs <;> simp_all

lemma regionStep_northAmerica (r : Regions) (b : QBalloon) :
    (regionStep r b).northAmerica = r.northAmerica + (if getRegion b.currentPosition = Region.northAmerica then 1 else 0) := by
  by_cases h : (0 : ℚ) ≤ b.currentPosition.lat <;>
    simp only [regionStep, getRegion, h, if_true, if_false] <;> split_ifs <;> simp_all

lemma regionStep_europe (r : Regions) (b : QBalloon) :
    (regionStep r b).europe = r.europe + (if getRegion b.currentPosition = Region.europe then 1 else 0) := by
  by_cases h : (0 : ℚ) ≤ b.currentPosition.lat <;>
    simp only [regionStep, getRegion, h, if_true, if_false] <;> split_ifs <;> simp_all

lemma regionStep_asia (r : Regions) (b : QBalloon) :
    (regionStep r b).asia = r.asia + (if getRegion b.currentPosition = Region.asia then 1 else 0) := by
  by_cases h : (0 : ℚ) ≤ b.currentPosition.lat <;>
    simp only [regionStep, getRegion, h, if_true, if_false] <;> split_ifs <;> simp_all

lemma regionStep_other (r : Regions) (b : QBalloon) :
    (regionStep r b).other = r.other + (if getRegion b.currentPosition = Region.other then 1 else 0) := by
  by_cases h : (0 : ℚ) ≤ b.currentPosition.lat <;>
    simp only [regionStep, getRegion, h, if_true, if_false] <;> split_ifs <;> simp_all

lemma regionStep_northernHem (r : Regions) (b : QBalloon) :
    (regionStep r b).northernHem = r.northernHem + (if 0 ≤ b.currentPosition.lat then 1 else 0) := by
  by_cases h : (0 : ℚ) ≤ b.currentPosition.lat <;>
    simp only [regionStep, h, if_true, if_false] <;> split_ifs <;> simp_all

lemma regionStep_southernHem (r : Regions) (b : QBalloon) :
    (regionStep r b).southernHem = r.southernHem + (if 0 ≤ b.currentPosition.lat then 0 else 1) := by
  by_cases h : (0 : ℚ) ≤ b.currentPosition.lat <;>
    simp only [regionStep, h, if_true, if_false] <;> split_ifs <;> simp_all

lemma distribution_fold (l : List QBalloon) (acc : Regions) :
    (l.foldl regionStep acc).pacific = acc.pacific + (l.filter (fun b => getRegion b.currentPosition = Region.pacific)).length ∧
    (l.foldl regionStep acc).atlantic = acc.atlantic + (l.filter (fun b => getRegion b.currentPosition = Region.atlantic)).length ∧
    (l.foldl regionStep acc).indian = acc.indian + (l.filter (fun b => getRegion b.currentPosition = Region.indian)).length ∧
    (l.foldl regionStep acc).northAmerica = acc.northAmerica + (l.filter (fun b => getRegion b.currentPosition = Region.northAmerica)).length ∧
    (l.foldl regionStep acc).europe = acc.europe + (l.filter (fun b => getRegion b.currentPosition = Region.europe)).length ∧
    (l.foldl regionStep acc).asia = acc.asia + (l.filter (fun b => getRegion b.currentPosition = Region.asia)).length ∧
    (l.foldl regionStep acc).other = acc.other + (l.filter (fun b => getRegion b.currentPosition = Region.other)).length ∧
    (l.foldl regionStep acc).northernHem = acc.northernHem + (l.filter (fun b => 0 ≤ b.currentPosition.lat)).length ∧
    (l.foldl regionStep acc).southernHem = acc.southernHem + (l.filter (fun b => ¬ 0 ≤ b.currentPosition.lat)).length := by
  induction l generalizing acc with
  | nil => simp
  | cons b rest ih =>
    have hrest := ih (regionStep acc b)
    simp only [List.foldl_cons]
    obtain ⟨h1, h2, h3, h4, h5, h6, h7, h8, h9⟩ := hrest
    refine ⟨?_, ?_, ?_, ?_, ?_, ?_, ?_, ?_, ?_⟩ <;>
      simp only [h1, h2, h3, h4, h5, h6, h7, h8, h9, regionStep_pacific, regionStep_atlantic,
        regionStep_indian, regionStep_northAmerica, regionStep_europe, regionStep_asia,
        regionStep_other, regionStep_northernHem, regionStep_southernHem,
        List.filter_cons] <;>
      split_ifs <;> simp_all <;> first | omega | linarith

/-- C9 counterexample: the claim reads the asia/indian split as covering the
whole closed longitude band [60, 150], but longitude 60 is captured first by
the [20, 60] band, so the point (lat 10, lon 60) — asia according to the
claim, since 10 ≥ 10 — is classified `other` by the code. -/
theorem getRegion_lon60_breaks_band_claim :
    getRegion ⟨10, 60, 0⟩ = Region.other ∧ Region.other ≠ Region.asia := by
  constructor
  · rfl
  · decide

/-- C9 (amended): the region classifier is a total deterministic function;
(40, -100) maps to northAmerica; within the longitude band (60, 150] —
longitude strictly greater than 60, since longitude 60 itself falls in the
[20, 60] band — points with lat ≥ 10 map to asia and points with lat < 10
map to indian; and for every balloon list the per-region counts produced by
`calculateRegionalDistribution` agree with classifying each balloon's
current position with `getRegion` (hemisphere counts shown against the
sign of the latitude as well). -/
theorem regionalDistribution_agrees_getRegion :
    (getRegion ⟨40, -100, 0⟩ = Region.northAmerica) ∧
    (∀ lat lon alt : ℚ, 60 < lon → lon ≤ 150 →
      (10 ≤ lat → getRegion ⟨lat, lon, alt⟩ = Region.asia) ∧
      (lat < 10 → getRegion ⟨lat, lon, alt⟩ = Region.indian)) ∧
    (∀ balloons : List QBalloon,
      (calculateRegionalDistribution balloons).pacific =
        (balloons.filter (fun b => getRegion b.currentPosition = Region.pacific)).length ∧
      (calculateRegionalDistribution balloons).atlantic =
        (balloons.filter (fun b => getRegion b.currentPosition = Region.atlantic)).length ∧
      (calculateRegionalDistribution balloons).indian =
        (balloons.filter (fun b => getRegion b.currentPosition = Region.indian)).length ∧
      (calculateRegionalDistribution balloons).northAmerica =
        (balloons.filter (fun b => getRegion b.currentPosition = Region.northAmerica)).length ∧
      (calculateRegionalDistribution balloons).europe =
        (balloons.filter (fun b => getRegion b.currentPosition = Region.europe)).length ∧
      (calculateRegionalDistribution balloons).asia =
        (balloons.filter (fun b => getRegion b.currentPosition = Region.asia)).length ∧
      (calculateRegionalDistribution balloons).other =
        (balloons.filter (fun b => getRegion b.currentPosition = Region.other)).length ∧
      (calculateRegionalDistribution balloons).northernHem =
        (balloons.filter (fun b => 0 ≤ b.currentPosition.lat)).length ∧
      (calculateRegionalDistribution balloons).southernHem =
        (balloons.filter (fun b => ¬ 0 ≤ b.currentPosition.lat)).length) := by
  refine ⟨by rfl, ?_, ?_⟩
  · intro lat lon alt h60 h150
    have hn1 : ¬ (-180 ≤ lon ∧ lon ≤ -70) := by
      intro h
      linarith [h.2]
    have hn2 : ¬ (-70 ≤ lon ∧ lon ≤ 20) := by
      intro h
      linarith [h.2]
    have hn3 : ¬ (20 ≤ lon ∧ lon ≤ 60) := by
      intro h
      linarith [h.2]
    have h4 : 60 ≤ lon ∧ lon ≤ 150 := ⟨le_of_lt h60, h150⟩
    constructor
    · intro hlat
      simp [getRegion, hn1, hn2, hn3, h4, hlat]
    · intro hlat
      have : ¬ (10 : ℚ) ≤ lat := by linarith
      simp [getRegion, hn1, hn2, hn3, h4, this]
  · intro balloons
    have h := distribution_fold balloons Regions.init
    simpa [calculateRegionalDistribution, Regions.init] using h

/-- C9 witness: the amended band rule applied at the concrete in-band points
(20, 100) and (-5, 100). -/
theorem regionalDistribution_agrees_getRegion_witness :
    getRegion ⟨20, 100, 0⟩ = Region.asia ∧ getRegion ⟨-5, 100, 0⟩ = Region.indian := by
  have h := regionalDistribution_agrees_getRegion.2.1 20 100 0 (by norm_num) (by norm_num)
  have h2 := regionalDistribution_agrees_getRegion.2.1 (-5) 100 0 (by norm_num) (by norm_num)
  exact ⟨h.1 (by norm_num), h2.2 (by norm_num)⟩

lemma bumpCell_counts (glat glon : ℚ) (cells : List Cell)
    (h : ∀ c ∈ cells, 1 ≤ c.count) :
    ∀ c ∈ bumpCell glat glon cells, 1 ≤ c.count := by
  induction cells with
  | nil =>
    intro c hc
    simp only [bumpCell, List.mem_singleton] at hc
    simp [hc]
  | cons d rest ih =>
    intro c hc
    simp only [bumpCell] at hc
    split_ifs at hc with hk
    · rcases List.mem_cons.mp hc with h1 | h1
      · subst h1
        simp
      · exact h c (List.mem_cons_of_mem d h1)
    · rcases List.mem_cons.mp hc with h1 | h1
      · subst h1
        exact h c (List.mem_cons_self _ _)
      · exact ih (fun c hc => h c (List.mem_cons_of_mem d hc)) c h1

lemma bumpCell_sum (glat glon : ℚ) (cells : List Cell) :
    ((bumpCell glat glon cells).map Cell.count).sum = (cells.map Cell.count).sum + 1 := by
  induction cells with
  | nil => simp [bumpCell]
  | cons d rest ih =>
    simp only [bumpCell]
    split_ifs with hk
    · simp
      omega
    · simp [ih]
      omega

lemma bumpCell_ne_nil (glat glon : ℚ) (cells : List Cell) :
    bumpCell glat glon cells ≠ [] := by
  cases cells with
  | nil => simp [bumpCell]
  | cons d rest =>
    simp only [bumpCell]
    split_ifs <;> simp

lemma density_fold_counts (gridSize : ℚ) (l : List QBalloon) (acc : List Cell)
    (h : ∀ c ∈ acc, 1 ≤ c.count) :
    ∀ c ∈ l.foldl
      (fun grid b =>
        bumpCell ((⌊b.currentPosition.lat / gridSize⌋ : ℚ) * gridSize)
          ((⌊b.currentPosition.lon / gridSize⌋ : ℚ) * gridSize) grid)
      acc, 1 ≤ c.count := by
  induction l generalizing acc with
  | nil => simpa using h
  | cons b rest ih =>
    simp only [List.foldl_cons]
    exact ih _ (bumpCell_counts _ _ _ h)

lemma density_fold_sum (gridSize : ℚ) (l : List QBalloon) (acc : List Cell) :
    ((l.foldl
      (fun grid b =>
        bumpCell ((⌊b.currentPosition.lat / gridSize⌋ : ℚ) * gridSize)
          ((⌊b.currentPosition.lon / gridSize⌋ : ℚ) * gridSize) grid)
      acc).map Cell.count).sum = (acc.map Cell.count).sum + l.length := by
  induction l generalizing acc with
  | nil => simp
  | cons b rest ih =>
    simp only [List.foldl_cons, ih, bumpCell_sum, List.length_cons]
    omega

lemma density_fold_ne_nil (gridSize : ℚ) (l : List QBalloon) (acc : List Cell)
    (h : acc ≠ [] ∨ l ≠ []) :
    l.foldl
      (fun grid b =>
        bumpCell ((⌊b.currentPosition.lat / gridSize⌋ : ℚ) * gridSize)
          ((⌊b.currentPosition.lon / gridSize⌋ : ℚ) * gridSize) grid)
      acc ≠ [] := by
  induction l generalizing acc with
  | nil =>
    rcases h with h | h
    · simpa using h
    · simp at h
  | cons b rest ih =>
    simp only [List.foldl_cons]
    exact ih _ (Or.inl (bumpCell_ne_nil _ _ _))

lemma insertDesc_sum (n : ℕ) (l : List ℕ) : (insertDesc n l).sum = n + l.sum := by
  induction l with
  | nil => simp [insertDesc]
  | cons m rest ih =>
    simp only [insertDesc]
    split_ifs <;> simp [ih] <;> omega

lemma sortDesc_sum (l : List ℕ) : (sortDesc l).sum = l.sum := by
  induction l with
  | nil => rfl
  | cons n rest ih => simp [sortDesc, List.foldr_cons, insertDesc_sum, ih.symm]

/-- C10: for every balloon list and positive grid size, every returned cell
has count at least 1, and the density-stats total — the sum of all cell
counts — is exactly the number of input balloons. -/
theorem calculateDensity_partition (balloons : List QBalloon) (gridSize : ℚ)
    (hg : 0 < gridSize) :
    (∀ c ∈ calculateDensity balloons gridSize, 1 ≤ c.count) ∧
    (getDensityStats (calculateDensity balloons gridSize)).total = balloons.length := by
  constructor
  · exact density_fold_counts gridSize balloons [] (by simp)
  · cases hb : balloons with
    | nil => simp [calculateDensity, getDensityStats]
    | cons b rest =>
      have hne : calculateDensity balloons gridSize ≠ [] := by
        rw [hb]
        exact density_fold_ne_nil gridSize (b :: rest) [] (Or.inr (by simp))
      have hsum : ((calculateDensity balloons gridSize).map Cell.count).sum = balloons.length := by
        have := density_fold_sum gridSize balloons []
        simpa [calculateDensity] using this
      rw [← hb]
      simp only [getDensityStats, List.isEmpty_iff]
      rw [if_neg hne]
      simpa [sortDesc_sum] using hsum

/-- C10 witness: two balloons on a 10-degree grid land in cells of count at
least one and the stats total equals the input count 2. -/
theorem calculateDensity_partition_witness :
    (0 : ℚ) < 10 ∧
    ((∀ c ∈ calculateDensity [⟨0, ⟨5, 5, 0⟩⟩, ⟨1, ⟨-20, 100, 0⟩⟩] 10, 1 ≤ c.count) ∧
      (getDensityStats (calculateDensity [⟨0, ⟨5, 5, 0⟩⟩, ⟨1, ⟨-20, 100, 0⟩⟩] 10)).total =
        ([⟨0, ⟨5, 5, 0⟩⟩, ⟨1, ⟨-20, 100, 0⟩⟩] : List QBalloon).length) :=
  ⟨by norm_num, calculateDensity_partition [⟨0, ⟨5, 5, 0⟩⟩, ⟨1, ⟨-20, 100, 0⟩⟩] 10 (by norm_num)⟩

end AnalyticsQ

namespace ApiService

lemma validateEntry_eq_some {h : ℤ} {i : ℕ} {e : JVal} {b : VBalloon}
    (he : validateEntry h i e = some b) :
    ∃ lat lon altKm tail,
      e = JVal.arr (JVal.num lat :: JVal.num lon :: JVal.num altKm :: tail) ∧
      b = ⟨i, lat, lon, altKm * 1000, h⟩ ∧
      -90 ≤ lat ∧ lat ≤ 90 ∧ -180 ≤ lon ∧ lon ≤ 180 := by
  unfold validateEntry at he
  split at he
  · rename_i a c d tail
    split at he
    · rename_i lat lon altKm
      split_ifs at he with hrange
      push_neg at hrange
      obtain ⟨hr1, hr2, hr3, hr4⟩ := hrange
      refine ⟨lat, lon, altKm, tail, rfl, ?_, by linarith, by linarith, by linarith, by linarith⟩
      exact (Option.some_injective _ he).symm
    · exact absurd he (by simp)
  · exact absurd he (by simp)

lemma validateEntry_valid (h : ℤ) (i : ℕ) (lat lon altKm : ℚ) (tail : List JVal)
    (h1 : -90 ≤ lat) (h2 : lat ≤ 90) (h3 : -180 ≤ lon) (h4 : lon ≤ 180) :
    validateEntry h i (JVal.arr (JVal.num lat :: JVal.num lon :: JVal.num altKm :: tail)) =
      some ⟨i, lat, lon, altKm * 1000, h⟩ := by
  simp only [validateEntry]
  rw [if_neg]
  push_neg
  exact ⟨by linarith, by linarith, by linarith, by linarith⟩

/-- C6: a non-array payload validates to null; every surviving balloon comes
from the entry at its own original index, an array starting with three
numbers whose latitude lies in [-90, 90] and longitude in [-180, 180], with
altitude scaled km → meters; every well-shaped in-range entry survives; and
on the concrete payload [[91, 0, 5], [str, str, str], [45, -122, 10.5]] only
the third entry survives, with index 2 and altitude 10500. -/
theorem validateBalloonData_spec :
    (∀ (d : JVal) (h : ℤ), (∀ l, d ≠ JVal.arr l) → validateBalloonData d h = none) ∧
    (∀ (entries : List JVal) (h : ℤ) (r : HourResult),
      validateBalloonData (JVal.arr entries) h = some r →
      ∀ b ∈ r.balloons,
        -90 ≤ b.lat ∧ b.lat ≤ 90 ∧ -180 ≤ b.lon ∧ b.lon ≤ 180 ∧ b.hour = h ∧
        ∃ altKm tail,
          entries[b.index]? =
            some (JVal.arr (JVal.num b.lat :: JVal.num b.lon :: JVal.num altKm :: tail)) ∧
          b.alt = altKm * 1000) ∧
    (∀ (entries : List JVal) (h : ℤ) (i : ℕ) (lat lon altKm : ℚ) (tail : List JVal),
      entries[i]? = some (JVal.arr (JVal.num lat :: JVal.num lon :: JVal.num altKm :: tail)) →
      -90 ≤ lat → lat ≤ 90 → -180 ≤ lon → lon ≤ 180 →
      ∃ r, validateBalloonData (JVal.arr entries) h = some r ∧
        (⟨i, lat, lon, altKm * 1000, h⟩ : VBalloon) ∈ r.balloons) ∧
    (∀ h : ℤ,
      validateBalloonData
        (JVal.arr [JVal.arr [JVal.num 91, JVal.num 0, JVal.num 5],
          JVal.arr [JVal.str, JVal.str, JVal.str],
          JVal.arr [JVal.num 45, JVal.num (-122), JVal.num 10.5]]) h =
        some ⟨h, [⟨2, 45, -122, 10500, h⟩]⟩) := by
  refine ⟨?_, ?_, ?_, ?_⟩
  · intro d h hne
    cases d with
    | arr l => exact absurd rfl (hne l)
    | num q => rfl
    | str => rfl
    | boolean v => rfl
    | nullv => rfl
  · intro entries h r hr b hb
    have hr2 : r = ⟨h, entries.enum.filterMap (fun p => validateEntry h p.1 p.2)⟩ :=
      (Option.some_injective _ hr).symm
    rw [hr2] at hb
    simp only [List.mem_filterMap] at hb
    obtain ⟨⟨i, e⟩, hmem, hsome⟩ := hb
    dsimp only at hsome
    obtain ⟨lat, lon, altKm, tail, hshape, hbeq, h1, h2, h3, h4⟩ := validateEntry_eq_some hsome
    have hget : entries[i]? = some e := List.mk_mem_enum_iff_getElem?.mp hmem
    subst hbeq
    exact ⟨h1, h2, h3, h4, rfl, altKm, tail, by rw [hget, hshape], rfl⟩
  · intro entries h i lat lon altKm tail hget h1 h2 h3 h4
    refine ⟨_, rfl, ?_⟩
    refine List.mem_filterMap.mpr ⟨(i, JVal.arr (JVal.num lat :: JVal.num lon :: JVal.num altKm :: tail)), ?_, ?_⟩
    · exact List.mk_mem_enum_iff_getElem?.mpr hget
    · exact validateEntry_valid h i lat lon altKm tail h1 h2 h3 h4
  · intro h
    have hred : validateBalloonData
        (JVal.arr [JVal.arr [JVal.num 91, JVal.num 0, JVal.num 5],
          JVal.arr [JVal.str, JVal.str, JVal.str],
          JVal.arr [JVal.num 45, JVal.num (-122), JVal.num 10.5]]) h =
        some ⟨h, [⟨2, 45, -122, 10.5 * 1000, h⟩]⟩ := rfl
    have halt : (10.5 : ℚ) * 1000 = 10500 := by norm_num
    rw [halt] at hred
    exact hred

/-- C6 witness: the survival conjunct applied to a one-entry payload
[[45, -122, 10.5]] at hour 3. -/
theorem validateBalloonData_spec_witness :
    ∃ r, validateBalloonData
        (JVal.arr [JVal.arr [JVal.num 45, JVal.num (-122), JVal.num 10.5]]) 3 = some r ∧
      (⟨0, 45, -122, 10.5 * 1000, 3⟩ : VBalloon) ∈ r.balloons :=
  validateBalloonData_spec.2.2.1 [JVal.arr [JVal.num 45, JVal.num (-122), JVal.num 10.5]] 3 0
    45 (-122) 10.5 [] (by rfl) (by norm_num) (by norm_num) (by norm_num) (by norm_num)

end ApiService

section RealHelpers

open Real

lemma atan2_zero_of_pos {x : ℝ} (hx : 0 < x) : atan2 0 x = 0 := by
  unfold atan2
  rw [if_pos hx, zero_div, Real.arctan_zero]

lemma atan2_of_pos_left {y x : ℝ} (hx : 0 < x) : atan2 y x = Real.arctan (y / x) := by
  unfold atan2
  rw [if_pos hx]

lemma atan2_pos_zero {y : ℝ} (hy : 0 < y) : atan2 y 0 = π / 2 := by
  unfold atan2
  rw [if_neg (lt_irrefl 0), if_neg (lt_irrefl 0), if_pos hy]

lemma atan2_self_of_pos {x : ℝ} (hx : 0 < x) : atan2 x x = π / 4 := by
  rw [atan2_of_pos_left hx, div_self (ne_of_gt hx), Real.arctan_one]

lemma atan2_nonneg {y x : ℝ} (hy : 0 ≤ y) : 0 ≤ atan2 y x := by
  have harc : ∀ t : ℝ, 0 ≤ t → 0 ≤ Real.arctan t := by
    intro t ht
    rw [← Real.arctan_zero]
    exact Real.arctan_strictMono.monotone ht
  unfold atan2
  split_ifs with h1 h2 h3
  · exact harc _ (div_nonneg hy h1.le)
  · linarith [Real.neg_pi_div_two_lt_arctan (y / x), Real.pi_pos]
  all_goals linarith [Real.pi_pos]

lemma jsMod_eval {a b : ℝ} (k : ℤ) (hab : 0 ≤ a / b) (hk : ⌊a / b⌋ = k) :
    jsMod a b = a - b * k := by
  unfold jsMod rTrunc
  rw [if_pos hab, hk]

end RealHelpers

namespace TrajR

/-- C5 counterexample: on a null model prediction the code does not
propagate "no comparison available": it substitutes a zero model, returning
the same nonzero numeric comparison as an explicit zero model would, while
the spec-modelled computation returns `none`. -/
theorem calculateDriftError_null_compares_zero :
    calculateDriftError ⟨10, 90⟩ none = calculateDriftError ⟨10, 90⟩ (some ⟨0, 0⟩) ∧
    (calculateDriftError ⟨10, 90⟩ none).magnitude ≠ 0 ∧
    driftErrorSpec ⟨10, 90⟩ none = none := by
  refine ⟨rfl, ?_, rfl⟩
  show Real.sqrt (((10 : ℝ) - 0) ^ 2 + |(90 : ℝ) - 0| ^ 2) ≠ 0
  have : (0 : ℝ) < ((10 : ℝ) - 0) ^ 2 + |(90 : ℝ) - 0| ^ 2 := by
    rw [abs_of_nonneg (by norm_num : (0 : ℝ) ≤ 90 - 0)]
    norm_num
  exact ne_of_gt (Real.sqrt_pos.mpr this)

/-- C5 (amended): `calculateDriftError` is never fatal and is total; with a
model prediction present the error is `{actual.speed - model.speed,
|actual.direction - model.direction|, sqrt(speedError² + directionError²)}`
(agreeing with the spec-modelled computation), but a null model prediction
is not propagated as "no comparison available": it is treated as a zero
model, yielding `{actual.speed, |actual.direction|, sqrt(...)}`. -/
theorem calculateDriftError_spec :
    (∀ a m : Drift,
      calculateDriftError a (some m) =
        ⟨a.speed - m.speed, |a.direction - m.direction|,
          Real.sqrt ((a.speed - m.speed) ^ 2 + |a.direction - m.direction| ^ 2)⟩) ∧
    (∀ a m : Drift,
      driftErrorSpec a (some m) = some (calculateDriftError a (some m))) ∧
    (∀ a : Drift,
      calculateDriftError a none =
        ⟨a.speed, |a.direction|, Real.sqrt (a.speed ^ 2 + |a.direction| ^ 2)⟩) := by
  refine ⟨fun a m => rfl, fun a m => rfl, fun a => ?_⟩
  simp only [calculateDriftError, sub_zero]

end TrajR

section RealHelpers2

open Real

lemma sin_pi_div_four_sq : Real.sin (π / 4) * Real.sin (π / 4) = 1 / 2 := by
  rw [Real.sin_pi_div_four, div_mul_div_comm, Real.mul_self_sqrt (by norm_num : (0:ℝ) ≤ 2)]
  norm_num

end RealHelpers2

namespace TrajR

open Real

lemma getDistance_equator_to_pole : getDistance 0 0 90 0 = 6371 * (π / 2) := by
  unfold getDistance
  dsimp only
  rw [show ((90:ℝ) - 0) * (π / 180) = π / 2 by ring]
  rw [show ((0:ℝ) - 0) * (π / 180) = 0 by ring]
  rw [show (π / 2) / 2 = π / 4 by ring]
  rw [show (0:ℝ) / 2 = 0 by norm_num]
  rw [Real.sin_zero]
  rw [sin_pi_div_four_sq]
  rw [show (0:ℝ) * (π / 180) = 0 by ring]
  rw [show (90:ℝ) * (π / 180) = π / 2 by ring]
  rw [Real.cos_zero, Real.cos_pi_div_two]
  norm_num
  rw [atan2_self_of_pos (inv_pos.mpr (Real.sqrt_pos.mpr (by norm_num)))]
  ring

/-- C4 counterexample: the claim ranges over every pair of in-range track
points, but the JS guard `!pos1.lat` is a truthiness test that catches the
valid latitude 0, so a segment starting on the equator gets speed 0 while
the claimed formula gives the (nonzero) haversine distance divided by
max(1, 1). -/
theorem calculateSegmentSpeed_zero_lat_counterexample :
    calculateSegmentSpeed ⟨0, 0, 0, 0⟩ ⟨90, 0, 0, 1⟩ = 0 ∧
    getDistance 0 0 90 0 / max 1 ((|(1 : ℤ) - 0| : ℤ) : ℝ) ≠ 0 := by
  constructor
  · simp [calculateSegmentSpeed]
  · rw [getDistance_equator_to_pole]
    simp only [sub_zero, abs_one]
    push_cast
    rw [max_self]
    positivity

/-- C4 (amended): for every pair of track points with in-range NONZERO
latitudes (the `!pos.lat` truthiness guard turns latitude 0 into a missing
position) and integer hour offsets, the segment speed is the haversine
distance divided by max(1, |Δ hourIndex|); for points one hour apart it
equals the distance, and for same-hour duplicate points the divisor floors
at 1. -/
theorem calculateSegmentSpeed_spec (pos1 pos2 : TrackPoint)
    (h1 : pos1.lat ≠ 0) (h2 : pos2.lat ≠ 0) :
    calculateSegmentSpeed pos1 pos2 =
      getDistance pos1.lat pos1.lon pos2.lat pos2.lon /
        max 1 ((|pos2.hourIndex - pos1.hourIndex| : ℤ) : ℝ) ∧
    (|pos2.hourIndex - pos1.hourIndex| = 1 →
      calculateSegmentSpeed pos1 pos2 = getDistance pos1.lat pos1.lon pos2.lat pos2.lon) ∧
    (pos2.hourIndex = pos1.hourIndex →
      calculateSegmentSpeed pos1 pos2 = getDistance pos1.lat pos1.lon pos2.lat pos2.lon / 1) := by
  have hmain : calculateSegmentSpeed pos1 pos2 =
      getDistance pos1.lat pos1.lon pos2.lat pos2.lon /
        max 1 ((|pos2.hourIndex - pos1.hourIndex| : ℤ) : ℝ) := by
    unfold calculateSegmentSpeed
    rw [if_neg (not_or.mpr ⟨h1, h2⟩)]
    dsimp only
    by_cases hz : |pos2.hourIndex - pos1.hourIndex| = 0
    · rw [if_pos hz, hz]
      norm_num
    · rw [if_neg hz]
      have h1le : (1 : ℤ) ≤ |pos2.hourIndex - pos1.hourIndex| := by
        rcases (abs_nonneg (pos2.hourIndex - pos1.hourIndex)).lt_or_eq with h | h
        · omega
        · omega
      have : max 1 ((|pos2.hourIndex - pos1.hourIndex| : ℤ) : ℝ) =
          ((|pos2.hourIndex - pos1.hourIndex| : ℤ) : ℝ) := by
        rw [max_eq_right]
        exact_mod_cast h1le
      rw [this]
  refine ⟨hmain, ?_, ?_⟩
  · intro hone
    rw [hmain, hone]
    norm_num
  · intro hsame
    rw [hmain, hsame]
    norm_num

/-- C4 witness: two nonzero-latitude points one hour apart get speed equal
to their haversine distance. -/
theorem calculateSegmentSpeed_spec_witness :
    calculateSegmentSpeed ⟨10, 20, 0, 0⟩ ⟨11, 20, 0, 1⟩ = getDistance 10 20 11 20 :=
  (calculateSegmentSpeed_spec ⟨10, 20, 0, 0⟩ ⟨11, 20, 0, 1⟩ (by norm_num) (by norm_num)).2.1
    (by norm_num)

end TrajR

namespace AnalyticsR

open Real

lemma calculateDistance_self (p : Position) : calculateDistance p p = 0 := by
  unfold calculateDistance toRad
  dsimp only
  rw [sub_self, sub_self]
  norm_num
  rw [atan2_zero_of_pos (by norm_num : (0:ℝ) < 1)]

lemma calculateDistance_symm (p1 p2 : Position) :
    calculateDistance p1 p2 = calculateDistance p2 p1 := by
  unfold calculateDistance toRad
  dsimp only
  have h1 : (p1.lat - p2.lat) * π / 180 / 2 = -((p2.lat - p1.lat) * π / 180 / 2) := by ring
  have h2 : (p1.lon - p2.lon) * π / 180 / 2 = -((p2.lon - p1.lon) * π / 180 / 2) := by ring
  rw [h1, h2, Real.sin_neg, Real.sin_neg]
  ring_nf

lemma calculateDistance_nonneg (p1 p2 : Position) : 0 ≤ calculateDistance p1 p2 := by
  unfold calculateDistance
  dsimp only
  have h := atan2_nonneg (x := Real.sqrt (1 -
      (Real.sin (toRad (p2.lat - p1.lat) / 2) * Real.sin (toRad (p2.lat - p1.lat) / 2) +
        Real.sin (toRad (p2.lon - p1.lon) / 2) * Real.sin (toRad (p2.lon - p1.lon) / 2) *
          Real.cos (toRad p1.lat) * Real.cos (toRad p2.lat))))
    (Real.sqrt_nonneg
      (Real.sin (toRad (p2.lat - p1.lat) / 2) * Real.sin (toRad (p2.lat - p1.lat) / 2) +
        Real.sin (toRad (p2.lon - p1.lon) / 2) * Real.sin (toRad (p2.lon - p1.lon) / 2) *
          Real.cos (toRad p1.lat) * Real.cos (toRad p2.lat)))
  linarith

end AnalyticsR

namespace TrajR

open Real

lemma getDistance_self (lat lon : ℝ) : getDistance lat lon lat lon = 0 := by
  unfold getDistance
  dsimp only
  rw [sub_self, sub_self]
  norm_num
  rw [atan2_zero_of_pos (by norm_num : (0:ℝ) < 1)]

lemma calculateSegmentSpeed_const {p q : TrackPoint} (hlat : p.lat = q.lat)
    (hlon : p.lon = q.lon) : calculateSegmentSpeed p q = 0 := by
  unfold calculateSegmentSpeed
  split_ifs with h h2
  · rfl
  · dsimp only
    rw [hlat, hlon, getDistance_self, zero_div]
  · dsimp only
    rw [hlat, hlon, getDistance_self, zero_div]

lemma calculateTotalDistance_const (lat lon : ℝ) :
    ∀ track : List TrackPoint, (∀ q ∈ track, q.lat = lat ∧ q.lon = lon) →
      calculateTotalDistance track = 0
  | [] => fun _ => rfl
  | [p] => fun _ => rfl
  | p :: q :: rest => fun h => by
    unfold calculateTotalDistance
    have hp := h p (by simp)
    have hq := h q (by simp)
    rw [hp.1, hp.2, hq.1, hq.2, getDistance_self]
    have := calculateTotalDistance_const lat lon (q :: rest)
      (fun r hr => h r (List.mem_cons_of_mem p hr))
    rw [this]
    norm_num

lemma calculateTrackSpeeds_const (lat lon : ℝ) :
    ∀ track : List TrackPoint, (∀ q ∈ track, q.lat = lat ∧ q.lon = lon) →
      ∀ s ∈ calculateTrackSpeeds track, s.speed = 0
  | [] => by simp [calculateTrackSpeeds]
  | [p] => by simp [calculateTrackSpeeds]
  | p :: q :: rest => fun h s hs => by
    unfold calculateTrackSpeeds at hs
    rcases List.mem_cons.mp hs with h1 | h1
    · have hp := h p (by simp)
      have hq := h q (by simp)
      rw [h1]
      exact calculateSegmentSpeed_const (by rw [hp.1, hq.1]) (by rw [hp.2, hq.2])
    · exact calculateTrackSpeeds_const lat lon (q :: rest)
        (fun r hr => h r (List.mem_cons_of_mem p hr)) s h1

/-- C8: for valid coordinates the haversine distance is symmetric and
nonnegative, the distance from a point to itself is 0, and a track whose
points all share one constant position has total distance 0 and average
speed 0. -/
theorem calculateDistance_metric_spec :
    (∀ p1 p2 : AnalyticsR.Position,
      -90 ≤ p1.lat → p1.lat ≤ 90 → -180 ≤ p1.lon → p1.lon ≤ 180 →
      -90 ≤ p2.lat → p2.lat ≤ 90 → -180 ≤ p2.lon → p2.lon ≤ 180 →
      AnalyticsR.calculateDistance p1 p2 = AnalyticsR.calculateDistance p2 p1 ∧
      0 ≤ AnalyticsR.calculateDistance p1 p2 ∧
      AnalyticsR.calculateDistance p1 p1 = 0) ∧
    (∀ (track : List TrackPoint) (lat lon : ℝ),
      (∀ q ∈ track, q.lat = lat ∧ q.lon = lon) →
      (calculateTrackStats track).totalDistance = 0 ∧
      (calculateTrackStats track).averageSpeed = 0) := by
  constructor
  · intro p1 p2 _ _ _ _ _ _ _ _
    exact ⟨AnalyticsR.calculateDistance_symm p1 p2, AnalyticsR.calculateDistance_nonneg p1 p2,
      AnalyticsR.calculateDistance_self p1⟩
  · intro track lat lon h
    cases track with
    | nil => exact ⟨rfl, rfl⟩
    | cons p rest =>
      unfold calculateTrackStats
      rw [if_neg (by simp)]
      dsimp only
      constructor
      · exact calculateTotalDistance_const lat lon (p :: rest) h
      · have hz : ∀ s ∈ calculateTrackSpeeds (p :: rest), s.speed = 0 :=
          calculateTrackSpeeds_const lat lon (p :: rest) h
        have hsum : ((calculateTrackSpeeds (p :: rest)).map SpeedPoint.speed).sum = 0 := by
          apply List.sum_eq_zero
          intro x hx
          obtain ⟨s, hs, rfl⟩ := List.mem_map.mp hx
          exact hz s hs
        split_ifs with hlen
        · rw [hsum, zero_div]
        · rfl

/-- C8 witness: the metric facts at the concrete valid points (10, 20) and
(30, 40), and the constant-position track of three copies of (10, 20). -/
theorem calculateDistance_metric_spec_witness :
    (AnalyticsR.calculateDistance ⟨10, 20, 0⟩ ⟨30, 40, 0⟩ =
        AnalyticsR.calculateDistance ⟨30, 40, 0⟩ ⟨10, 20, 0⟩ ∧
      0 ≤ AnalyticsR.calculateDistance ⟨10, 20, 0⟩ ⟨30, 40, 0⟩ ∧
      AnalyticsR.calculateDistance ⟨10, 20, 0⟩ ⟨10, 20, 0⟩ = 0) ∧
    ((calculateTrackStats [⟨10, 20, 5000, 0⟩, ⟨10, 20, 5000, 1⟩, ⟨10, 20, 5000, 2⟩]).totalDistance = 0 ∧
      (calculateTrackStats [⟨10, 20, 5000, 0⟩, ⟨10, 20, 5000, 1⟩, ⟨10, 20, 5000, 2⟩]).averageSpeed = 0) :=
  ⟨calculateDistance_metric_spec.1 ⟨10, 20, 0⟩ ⟨30, 40, 0⟩ (by norm_num) (by norm_num)
      (by norm_num) (by norm_num) (by norm_num) (by norm_num) (by norm_num) (by norm_num),
    calculateDistance_metric_spec.2 [⟨10, 20, 5000, 0⟩, ⟨10, 20, 5000, 1⟩, ⟨10, 20, 5000, 2⟩]
      10 20 (by intro q hq; fin_cases hq <;> exact ⟨rfl, rfl⟩)⟩

end TrajR

namespace AnalyticsR

open Real

lemma calculateBearing_backward_offset (p : Position) (a : ℝ) :
    calculateBearing ⟨p.lat - 0.1, p.lon, a⟩ p = 0 := by
  unfold calculateBearing toRad
  dsimp only
  rw [sub_self]
  norm_num
  have hx : Real.cos ((p.lat - 1 / 10) * π / 180) * Real.sin (p.lat * π / 180) -
      Real.sin ((p.lat - 1 / 10) * π / 180) * Real.cos (p.lat * π / 180) =
      Real.sin (p.lat * π / 180 - (p.lat - 1 / 10) * π / 180) := by
    rw [Real.sin_sub]
    ring
  rw [hx]
  rw [show p.lat * π / 180 - (p.lat - 1 / 10) * π / 180 = π / 1800 by ring]
  have hxpos : 0 < Real.sin (π / 1800) := by
    apply Real.sin_pos_of_pos_of_lt_pi
    · positivity
    · linarith [Real.pi_pos]
  rw [atan2_zero_of_pos hxpos]
  rw [show (0:ℝ) * 180 / π + 360 = 360 by ring]
  rw [jsMod_eval 1 (by norm_num) (by norm_num)]
  norm_num

/-- C3: the shear scanner's approximate heading — the bearing from a point
0.1° due south of a balloon's position to that position — is identically 0
(due north), so the circular heading difference of any pair is 0, the >90°
flag never fires, and `detectShearLayers` returns the empty list on every
input. -/
theorem detectShearLayers_empty :
    (∀ balloons : List Balloon, detectShearLayers balloons = []) ∧
    (∀ (p : Position) (a : ℝ), calculateBearing ⟨p.lat - 0.1, p.lon, a⟩ p = 0) := by
  refine ⟨?_, calculateBearing_backward_offset⟩
  intro balloons
  unfold detectShearLayers
  rw [List.flatMap_eq_nil_iff]
  intro balloonA _
  rw [List.flatMap_eq_nil_iff]
  intro balloonB _
  by_cases hid : balloonA.id = balloonB.id
  · rw [if_pos hid]
  · rw [if_neg hid]
    dsimp only
    split_ifs with hnear hflag
    · exact absurd hflag (by
        rw [calculateBearing_backward_offset, calculateBearing_backward_offset]
        norm_num)
    · rfl
    · rfl

end AnalyticsR

namespace TrajectoryQ

/-- C2 evaluation: on snapshots for hours 0, 1, 2, each with one balloon at
index 0 (latitudes 10, 11, 12), the stored track has 4 points (3 real + 1
synthetic) and the synthetic hour-25 duplicate is last, but the points are
sorted ascending by `hourIndex` = hours-ago: the hour-0 CURRENT position is
stored first and the oldest real point (hour 2) third — the reverse of the
oldest-to-newest chronological order the claim (and the code's own
"oldest first" comment) requires. -/
theorem processConstellationHistory_stores_newest_first :
    processConstellationHistory
        [⟨0, [⟨0, 10, 20, 5000⟩]⟩, ⟨1, [⟨0, 11, 20, 5000⟩]⟩, ⟨2, [⟨0, 12, 20, 5000⟩]⟩] =
      [(0, [⟨0, 10, 20, 5000, 0⟩, ⟨0, 11, 20, 5000, 1⟩,
            ⟨0, 12, 20, 5000, 2⟩, ⟨0, 10, 20, 5000, 25⟩])] ∧
    (processConstellationHistory
        [⟨0, [⟨0, 10, 20, 5000⟩]⟩, ⟨1, [⟨0, 11, 20, 5000⟩]⟩, ⟨2, [⟨0, 12, 20, 5000⟩]⟩]).map
      (fun kt => (kt.1, kt.2.map TEPoint.hourIndex)) = [(0, [0, 1, 2, 25])] := by
  constructor
  · rfl
  · rfl

end TrajectoryQ

namespace AnalyticsR

open Real

lemma bearing_equator_up60 (lon1 lon2 a1 a2 : ℝ) (h : lon2 = lon1 + 90) :
    calculateBearing ⟨0, lon1, a1⟩ ⟨60, lon2, a2⟩ = 30 := by
  subst h
  unfold calculateBearing toRad
  dsimp only
  rw [show (lon1 + 90 - lon1) * π / 180 = π / 2 by ring]
  rw [show (60:ℝ) * π / 180 = π / 3 by ring]
  rw [show (0:ℝ) * π / 180 = 0 by ring]
  rw [Real.sin_pi_div_two, Real.cos_pi_div_three, Real.sin_zero, Real.cos_zero,
    Real.sin_pi_div_three, Real.cos_pi_div_two]
  norm_num
  rw [atan2_of_pos_left (by positivity)]
  have hdiv : (1/2 : ℝ) / (Real.sqrt 3 / 2) = Real.sqrt 3 / 3 := by
    have hne : Real.sqrt 3 ≠ 0 := ne_of_gt (Real.sqrt_pos.mpr (by norm_num))
    field_simp
  rw [hdiv]
  have h : Real.arctan (Real.sqrt 3 / 3) = π / 6 := by
    have ht : Real.sqrt 3 / 3 = Real.tan (π / 6) := by
      rw [Real.tan_eq_sin_div_cos, Real.sin_pi_div_six, Real.cos_pi_div_six]
      rw [div_eq_div_iff (by norm_num) (by positivity)]
      field_simp
    rw [ht, Real.arctan_tan (by linarith [Real.pi_pos]) (by linarith [Real.pi_pos])]
  rw [h]
  rw [show π / 6 * 180 / π + 360 = 390 by field_simp; ring]
  rw [jsMod_eval 1 (by norm_num) (by norm_num)]
  norm_num

lemma bearing_to_equator90 (l1 lon1 lon2 a1 a2 : ℝ) (h : lon2 = lon1 + 90) :
    calculateBearing ⟨l1, lon1, a1⟩ ⟨0, lon2, a2⟩ = 90 := by
  subst h
  unfold calculateBearing toRad
  dsimp only
  rw [show (lon1 + 90 - lon1) * π / 180 = π / 2 by ring]
  rw [show (0:ℝ) * π / 180 = 0 by ring]
  rw [Real.sin_pi_div_two, Real.sin_zero, Real.cos_zero, Real.cos_pi_div_two]
  norm_num
  rw [atan2_pos_zero (by norm_num)]
  rw [show π / 2 * 180 / π + 360 = 450 by field_simp; ring]
  rw [jsMod_eval 1 (by norm_num) (by norm_num)]
  norm_num

lemma dist_up60 (lon1 lon2 a1 a2 : ℝ) (h : lon2 = lon1 + 90) :
    calculateDistance ⟨0, lon1, a1⟩ ⟨60, lon2, a2⟩ = 6371 * (π / 2) := by
  subst h
  unfold calculateDistance toRad
  dsimp only
  rw [show ((60:ℝ) - 0) * π / 180 = π / 3 by ring]
  rw [show (lon1 + 90 - lon1) * π / 180 = π / 2 by ring]
  rw [show (π / 3) / 2 = π / 6 by ring]
  rw [show (π / 2) / 2 = π / 4 by ring]
  rw [show (0:ℝ) * π / 180 = 0 by ring]
  rw [show (60:ℝ) * π / 180 = π / 3 by ring]
  rw [Real.sin_pi_div_six, sin_pi_div_four_sq, Real.cos_zero, Real.cos_pi_div_three]
  norm_num
  rw [atan2_self_of_pos (inv_pos.mpr (Real.sqrt_pos.mpr (by norm_num)))]
  ring

lemma dist_down60 (lon1 lon2 a1 a2 : ℝ) (h : lon2 = lon1 + 90) :
    calculateDistance ⟨60, lon1, a1⟩ ⟨0, lon2, a2⟩ = 6371 * (π / 2) := by
  subst h
  unfold calculateDistance toRad
  dsimp only
  rw [show ((0:ℝ) - 60) * π / 180 = -(π / 3) by ring]
  rw [show (lon1 + 90 - lon1) * π / 180 = π / 2 by ring]
  rw [show (-(π / 3)) / 2 = -(π / 6) by ring]
  rw [show (π / 2) / 2 = π / 4 by ring]
  rw [show (0:ℝ) * π / 180 = 0 by ring]
  rw [show (60:ℝ) * π / 180 = π / 3 by ring]
  rw [Real.sin_neg, Real.sin_pi_div_six, sin_pi_div_four_sq, Real.cos_zero, Real.cos_pi_div_three]
  norm_num
  rw [atan2_self_of_pos (inv_pos.mpr (Real.sqrt_pos.mpr (by norm_num)))]
  ring

lemma dist_equator_east (lon1 lon2 a1 a2 : ℝ) (h : lon2 = lon1 + 90) :
    calculateDistance ⟨0, lon1, a1⟩ ⟨0, lon2, a2⟩ = 6371 * (π / 2) := by
  subst h
  unfold calculateDistance toRad
  dsimp only
  rw [show ((0:ℝ) - 0) * π / 180 = 0 by ring]
  rw [show (lon1 + 90 - lon1) * π / 180 = π / 2 by ring]
  rw [show (0:ℝ) / 2 = 0 by norm_num]
  rw [show (π / 2) / 2 = π / 4 by ring]
  rw [show (0:ℝ) * π / 180 = 0 by ring]
  rw [Real.sin_zero, sin_pi_div_four_sq, Real.cos_zero]
  norm_num
  rw [atan2_self_of_pos (inv_pos.mpr (Real.sqrt_pos.mpr (by norm_num)))]
  ring

lemma eddy_foldl_spec (track : List Position) :
    ∀ (l : List ℕ) (a : ℝ) (b : ℕ),
      l.foldl (eddyStep track) (a, b) =
        (a + (l.map (fun i =>
          if calculateDistance (track.getD (i - 1) ⟨0, 0, 0⟩) (track.getD i ⟨0, 0, 0⟩) < 1
          then 0 else eddyDiff track i)).sum,
        b + (l.map (fun i =>
          if calculateDistance (track.getD (i - 1) ⟨0, 0, 0⟩) (track.getD i ⟨0, 0, 0⟩) < 1
          then 0 else if eddyDiff track i > 45 then 1 else 0)).sum)
  | [], a, b => by simp
  | i :: rest, a, b => by
    rw [List.foldl_cons]
    have hstep : eddyStep track (a, b) i =
        (a + (if calculateDistance (track.getD (i - 1) ⟨0, 0, 0⟩) (track.getD i ⟨0, 0, 0⟩) < 1
          then 0 else eddyDiff track i),
        b + (if calculateDistance (track.getD (i - 1) ⟨0, 0, 0⟩) (track.getD i ⟨0, 0, 0⟩) < 1
          then 0 else if eddyDiff track i > 45 then 1 else 0)) := by
      unfold eddyStep
      split_ifs <;> simp
    rw [hstep, eddy_foldl_spec track rest]
    simp only [List.map_cons, List.sum_cons, Prod.mk.injEq]
    constructor
    · ring
    · omega

end AnalyticsR

namespace AnalyticsR

open Real

lemma eddyStep_seg1 (acc : ℝ × ℕ) :
    eddyStep eddyCounterTrack acc 1 = (acc.1 + 0, acc.2 + 0) := by
  have hdist : calculateDistance (eddyCounterTrack.getD (1 - 1) ⟨0, 0, 0⟩)
      (eddyCounterTrack.getD 1 ⟨0, 0, 0⟩) = 6371 * (π / 2) := by
    show calculateDistance ⟨0, 0, 0⟩ ⟨60, 90, 0⟩ = 6371 * (π / 2)
    exact dist_up60 0 90 0 0 (by norm_num)
  have hH : eddyHeading eddyCounterTrack 1 = 30 := by
    show calculateBearing ⟨0, 0, 0⟩ ⟨60, 90, 0⟩ = 30
    exact bearing_equator_up60 0 90 0 0 (by norm_num)
  have hP : eddyPrevHeading eddyCounterTrack 1 = 30 := by
    show calculateBearing ⟨0, 0, 0⟩ ⟨60, 90, 0⟩ = 30
    exact bearing_equator_up60 0 90 0 0 (by norm_num)
  have hdiff : eddyDiff eddyCounterTrack 1 = 0 := by
    unfold eddyDiff
    dsimp only
    rw [hH, hP]
    rw [if_neg (by norm_num : ¬ |(30 : ℝ) - 30| > 180)]
    norm_num
  unfold eddyStep
  rw [hdist, if_neg (by nlinarith [Real.pi_gt_three]), hdiff, if_neg (by norm_num)]

lemma eddyStep_seg2 (acc : ℝ × ℕ) :
    eddyStep eddyCounterTrack acc 2 = (acc.1 + 60, acc.2 + 1) := by
  have hdist : calculateDistance (eddyCounterTrack.getD (2 - 1) ⟨0, 0, 0⟩)
      (eddyCounterTrack.getD 2 ⟨0, 0, 0⟩) = 6371 * (π / 2) := by
    show calculateDistance ⟨60, 90, 0⟩ ⟨0, 180, 0⟩ = 6371 * (π / 2)
    exact dist_down60 90 180 0 0 (by norm_num)
  have hH : eddyHeading eddyCounterTrack 2 = 90 := by
    show calculateBearing ⟨60, 90, 0⟩ ⟨0, 180, 0⟩ = 90
    exact bearing_to_equator90 60 90 180 0 0 (by norm_num)
  have hP : eddyPrevHeading eddyCounterTrack 2 = 30 := by
    show calculateBearing ⟨0, 0, 0⟩ ⟨60, 90, 0⟩ = 30
    exact bearing_equator_up60 0 90 0 0 (by norm_num)
  have hdiff : eddyDiff eddyCounterTrack 2 = 60 := by
    unfold eddyDiff
    dsimp only
    rw [hH, hP]
    rw [if_neg (by norm_num : ¬ |(90 : ℝ) - 30| > 180)]
    norm_num
  unfold eddyStep
  rw [hdist, if_neg (by nlinarith [Real.pi_gt_three]), hdiff, if_pos (by norm_num)]

lemma eddyStep_seg3 (acc : ℝ × ℕ) :
    eddyStep eddyCounterTrack acc 3 = (acc.1 + 0, acc.2 + 0) := by
  have hdist : calculateDistance (eddyCounterTrack.getD (3 - 1) ⟨0, 0, 0⟩)
      (eddyCounterTrack.getD 3 ⟨0, 0, 0⟩) = 6371 * (π / 2) := by
    show calculateDistance ⟨0, 180, 0⟩ ⟨0, 270, 0⟩ = 6371 * (π / 2)
    exact dist_equator_east 180 270 0 0 (by norm_num)
  have hH : eddyHeading eddyCounterTrack 3 = 90 := by
    show calculateBearing ⟨0, 180, 0⟩ ⟨0, 270, 0⟩ = 90
    exact bearing_to_equator90 0 180 270 0 0 (by norm_num)
  have hP : eddyPrevHeading eddyCounterTrack 3 = 90 := by
    show calculateBearing ⟨60, 90, 0⟩ ⟨0, 180, 0⟩ = 90
    exact bearing_to_equator90 60 90 180 0 0 (by norm_num)
  have hdiff : eddyDiff eddyCounterTrack 3 = 0 := by
    unfold eddyDiff
    dsimp only
    rw [hH, hP]
    rw [if_neg (by norm_num : ¬ |(90 : ℝ) - 90| > 180)]
    norm_num
  unfold eddyStep
  rw [hdist, if_neg (by nlinarith [Real.pi_gt_three]), hdiff, if_neg (by norm_num)]

lemma eddyStep_seg4 (acc : ℝ × ℕ) :
    eddyStep eddyCounterTrack acc 4 = (acc.1 + 0, acc.2 + 0) := by
  have hdist : calculateDistance (eddyCounterTrack.getD (4 - 1) ⟨0, 0, 0⟩)
      (eddyCounterTrack.getD 4 ⟨0, 0, 0⟩) = 6371 * (π / 2) := by
    show calculateDistance ⟨0, 270, 0⟩ ⟨0, 360, 0⟩ = 6371 * (π / 2)
    exact dist_equator_east 270 360 0 0 (by norm_num)
  have hH : eddyHeading eddyCounterTrack 4 = 90 := by
    show calculateBearing ⟨0, 270, 0⟩ ⟨0, 360, 0⟩ = 90
    exact bearing_to_equator90 0 270 360 0 0 (by norm_num)
  have hP : eddyPrevHeading eddyCounterTrack 4 = 90 := by
    show calculateBearing ⟨0, 180, 0⟩ ⟨0, 270, 0⟩ = 90
    exact bearing_to_equator90 0 180 270 0 0 (by norm_num)
  have hdiff : eddyDiff eddyCounterTrack 4 = 0 := by
    unfold eddyDiff
    dsimp only
    rw [hH, hP]
    rw [if_neg (by norm_num : ¬ |(90 : ℝ) - 90| > 180)]
    norm_num
  unfold eddyStep
  rw [hdist, if_neg (by nlinarith [Real.pi_gt_three]), hdiff, if_neg (by norm_num)]

lemma eddyStep_seg5 (acc : ℝ × ℕ) :
    eddyStep eddyCounterTrack acc 5 = (acc.1 + 60, acc.2 + 1) := by
  have hdist : calculateDistance (eddyCounterTrack.getD (5 - 1) ⟨0, 0, 0⟩)
      (eddyCounterTrack.getD 5 ⟨0, 0, 0⟩) = 6371 * (π / 2) := by
    show calculateDistance ⟨0, 360, 0⟩ ⟨60, 450, 0⟩ = 6371 * (π / 2)
    exact dist_up60 360 450 0 0 (by norm_num)
  have hH : eddyHeading eddyCounterTrack 5 = 30 := by
    show calculateBearing ⟨0, 360, 0⟩ ⟨60, 450, 0⟩ = 30
    exact bearing_equator_up60 360 450 0 0 (by norm_num)
  have hP : eddyPrevHeading eddyCounterTrack 5 = 90 := by
    show calculateBearing ⟨0, 270, 0⟩ ⟨0, 360, 0⟩ = 90
    exact bearing_to_equator90 0 270 360 0 0 (by norm_num)
  have hdiff : eddyDiff eddyCounterTrack 5 = 60 := by
    unfold eddyDiff
    dsimp only
    rw [hH, hP]
    rw [if_neg (by norm_num : ¬ |(30 : ℝ) - 90| > 180)]
    norm_num
  unfold eddyStep
  rw [hdist, if_neg (by nlinarith [Real.pi_gt_three]), hdiff, if_pos (by norm_num)]

lemma eddyStep_seg6 (acc : ℝ × ℕ) :
    eddyStep eddyCounterTrack acc 6 = (acc.1 + 60, acc.2 + 1) := by
  have hdist : calculateDistance (eddyCounterTrack.getD (6 - 1) ⟨0, 0, 0⟩)
      (eddyCounterTrack.getD 6 ⟨0, 0, 0⟩) = 6371 * (π / 2) := by
    show calculateDistance ⟨60, 450, 0⟩ ⟨0, 540, 0⟩ = 6371 * (π / 2)
    exact dist_down60 450 540 0 0 (by norm_num)
  have hH : eddyHeading eddyCounterTrack 6 = 90 := by
    show calculateBearing ⟨60, 450, 0⟩ ⟨0, 540, 0⟩ = 90
    exact bearing_to_equator90 60 450 540 0 0 (by norm_num)
  have hP : eddyPrevHeading eddyCounterTrack 6 = 30 := by
    show calculateBearing ⟨0, 360, 0⟩ ⟨60, 450, 0⟩ = 30
    exact bearing_equator_up60 360 450 0 0 (by norm_num)
  have hdiff : eddyDiff eddyCounterTrack 6 = 60 := by
    unfold eddyDiff
    dsimp only
    rw [hH, hP]
    rw [if_neg (by norm_num : ¬ |(90 : ℝ) - 30| > 180)]
    norm_num
  unfold eddyStep
  rw [hdist, if_neg (by nlinarith [Real.pi_gt_three]), hdiff, if_pos (by norm_num)]

lemma eddyStep_seg7 (acc : ℝ × ℕ) :
    eddyStep eddyCounterTrack acc 7 = (acc.1 + 60, acc.2 + 1) := by
  have hdist : calculateDistance (eddyCounterTrack.getD (7 - 1) ⟨0, 0, 0⟩)
      (eddyCounterTrack.getD 7 ⟨0, 0, 0⟩) = 6371 * (π / 2) := by
    show calculateDistance ⟨0, 540, 0⟩ ⟨60, 630, 0⟩ = 6371 * (π / 2)
    exact dist_up60 540 630 0 0 (by norm_num)
  have hH : eddyHeading eddyCounterTrack 7 = 30 := by
    show calculateBearing ⟨0, 540, 0⟩ ⟨60, 630, 0⟩ = 30
    exact bearing_equator_up60 540 630 0 0 (by norm_num)
  have hP : eddyPrevHeading eddyCounterTrack 7 = 90 := by
    show calculateBearing ⟨60, 450, 0⟩ ⟨0, 540, 0⟩ = 90
    exact bearing_to_equator90 60 450 540 0 0 (by norm_num)
  have hdiff : eddyDiff eddyCounterTrack 7 = 60 := by
    unfold eddyDiff
    dsimp only
    rw [hH, hP]
    rw [if_neg (by norm_num : ¬ |(30 : ℝ) - 90| > 180)]
    norm_num
  unfold eddyStep
  rw [hdist, if_neg (by nlinarith [Real.pi_gt_three]), hdiff, if_pos (by norm_num)]

lemma eddyStep_seg8 (acc : ℝ × ℕ) :
    eddyStep eddyCounterTrack acc 8 = (acc.1 + 60, acc.2 + 1) := by
  have hdist : calculateDistance (eddyCounterTrack.getD (8 - 1) ⟨0, 0, 0⟩)
      (eddyCounterTrack.getD 8 ⟨0, 0, 0⟩) = 6371 * (π / 2) := by
    show calculateDistance ⟨60, 630, 0⟩ ⟨0, 720, 0⟩ = 6371 * (π / 2)
    exact dist_down60 630 720 0 0 (by norm_num)
  have hH : eddyHeading eddyCounterTrack 8 = 90 := by
    show calculateBearing ⟨60, 630, 0⟩ ⟨0, 720, 0⟩ = 90
    exact bearing_to_equator90 60 630 720 0 0 (by norm_num)
  have hP : eddyPrevHeading eddyCounterTrack 8 = 30 := by
    show calculateBearing ⟨0, 540, 0⟩ ⟨60, 630, 0⟩ = 30
    exact bearing_equator_up60 540 630 0 0 (by norm_num)
  have hdiff : eddyDiff eddyCounterTrack 8 = 60 := by
    unfold eddyDiff
    dsimp only
    rw [hH, hP]
    rw [if_neg (by norm_num : ¬ |(90 : ℝ) - 30| > 180)]
    norm_num
  unfold eddyStep
  rw [hdist, if_neg (by nlinarith [Real.pi_gt_three]), hdiff, if_pos (by norm_num)]

lemma eddyStep_seg9 (acc : ℝ × ℕ) :
    eddyStep eddyCounterTrack acc 9 = (acc.1 + 60, acc.2 + 1) := by
  have hdist : calculateDistance (eddyCounterTrack.getD (9 - 1) ⟨0, 0, 0⟩)
      (eddyCounterTrack.getD 9 ⟨0, 0, 0⟩) = 6371 * (π / 2) := by
    show calculateDistance ⟨0, 720, 0⟩ ⟨60, 810, 0⟩ = 6371 * (π / 2)
    exact dist_up60 720 810 0 0 (by norm_num)
  have hH : eddyHeading eddyCounterTrack 9 = 30 := by
    show calculateBearing ⟨0, 720, 0⟩ ⟨60, 810, 0⟩ = 30
    exact bearing_equator_up60 720 810 0 0 (by norm_num)
  have hP : eddyPrevHeading eddyCounterTrack 9 = 90 := by
    show calculateBearing ⟨60, 630, 0⟩ ⟨0, 720, 0⟩ = 90
    exact bearing_to_equator90 60 630 720 0 0 (by norm_num)
  have hdiff : eddyDiff eddyCounterTrack 9 = 60 := by
    unfold eddyDiff
    dsimp only
    rw [hH, hP]
    rw [if_neg (by norm_num : ¬ |(30 : ℝ) - 90| > 180)]
    norm_num
  unfold eddyStep
  rw [hdist, if_neg (by nlinarith [Real.pi_gt_three]), hdiff, if_pos (by norm_num)]
end AnalyticsR

namespace AnalyticsR

open Real

lemma eddyCounterTrack_foldl :
    List.foldl (eddyStep eddyCounterTrack) ((0 : ℝ), (0 : ℕ)) [1, 2, 3, 4, 5, 6, 7, 8, 9] =
      (360, 6) := by
  simp only [List.foldl_cons, List.foldl_nil, eddyStep_seg1, eddyStep_seg2, eddyStep_seg3,
    eddyStep_seg4, eddyStep_seg5, eddyStep_seg6, eddyStep_seg7, eddyStep_seg8, eddyStep_seg9]
  norm_num

/-- C7 counterexample: a 10-point track with exactly six direction changes
of 60° (cumulative 360°, every segment moving about 10000 km): six of its
nine segments — more than 60% of the segments — show a change above 45°,
so the claim as stated flags an eddy, but `detectEddies` compares the count
against 60% of the POINT count (6 > 6 fails) and returns false. -/
theorem detectEddies_threshold_counterexample :
    detectEddies eddyCounterTrack = false ∧
    eddyCounterTrack.length = 10 ∧
    eddyDirectionChanges eddyCounterTrack = 6 ∧
    (0.6 : ℝ) * ((eddyCounterTrack.length : ℝ) - 1) < (eddyDirectionChanges eddyCounterTrack : ℝ) := by
  have hrange : (List.range eddyCounterTrack.length).drop 1 = [1, 2, 3, 4, 5, 6, 7, 8, 9] := rfl
  have hspec := eddy_foldl_spec eddyCounterTrack [1, 2, 3, 4, 5, 6, 7, 8, 9] 0 0
  rw [eddyCounterTrack_foldl] at hspec
  have h2 := congrArg Prod.snd hspec
  dsimp only at h2
  have hchanges : eddyDirectionChanges eddyCounterTrack = 6 := by
    unfold eddyDirectionChanges
    rw [hrange]
    omega
  have heddies : detectEddies eddyCounterTrack = false := by
    unfold detectEddies
    rw [if_neg (by norm_num [eddyCounterTrack] : ¬ eddyCounterTrack.length < 6)]
    dsimp only
    rw [hrange, eddyCounterTrack_foldl]
    rw [if_neg]
    push_neg
    constructor
    · norm_num
    · show ((6 : ℕ) : ℝ) ≤ (eddyCounterTrack.length : ℝ) * 0.6
      norm_num [eddyCounterTrack]
  refine ⟨heddies, rfl, hchanges, ?_⟩
  rw [hchanges]
  norm_num [eddyCounterTrack]

/-- C7 (amended): for a track with fewer than 6 points `detectEddies` is
false; otherwise it accumulates the absolute bearing change between
consecutive segments, wrapped to at most 180° per step (segments moving
less than 1 km are skipped), and flags an eddy exactly when the cumulative
change exceeds 360° or the number of segments with a direction change above
45° exceeds 60% of the number of track POINTS (not segments). -/
theorem detectEddies_spec (track : List Position) :
    detectEddies track = true ↔
      6 ≤ track.length ∧
      (eddyTotalChange track > 360 ∨
        (eddyDirectionChanges track : ℝ) > (track.length : ℝ) * 0.6) := by
  unfold detectEddies eddyTotalChange eddyDirectionChanges
  by_cases h6 : track.length < 6
  · rw [if_pos h6]
    simp only [Bool.false_eq_true, false_iff]
    intro hcontra
    omega
  · rw [if_neg h6]
    dsimp only
    rw [eddy_foldl_spec track ((List.range track.length).drop 1) 0 0]
    dsimp only
    rw [zero_add, zero_add]
    split_ifs with hcond
    · simp only [true_iff]
      exact ⟨by omega, hcond⟩
    · simp only [Bool.false_eq_true, false_iff]
      intro hcontra
      exact hcond hcontra.2

end AnalyticsR

namespace AnalyticsQ

lemma getNeighbors_subset (near : QBalloon → QBalloon → Bool) (balloons : List QBalloon)
    (b : QBalloon) : ∀ q ∈ getNeighbors near balloons b, q ∈ balloons := by
  intro q hq
  exact List.mem_of_mem_filter hq

lemma expandLoop_inv (near : QBalloon → QBalloon → Bool) (balloons : List QBalloon)
    (minPts : ℕ) (C0 : List ℕ) :
    ∀ (fuel : ℕ) (queue : List QBalloon) (st : ExpSt),
      (∀ q ∈ queue, q ∈ balloons) → ExpInv balloons C0 st →
      ExpInv balloons C0 (expandLoop near balloons minPts fuel queue st) := by
  intro fuel
  induction fuel with
  | zero =>
    intro queue st _ hI
    rw [expandLoop]
    exact hI
  | succ fuel ih =>
    intro queue st hq hI
    cases queue with
    | nil =>
      rw [expandLoop]
      exact hI
    | cons current queue =>
      obtain ⟨h1, h2, h3, h4, h5, h6, h7⟩ := hI
      have hcur : current ∈ balloons := hq current (List.mem_cons_self _ _)
      have hqtail : ∀ q ∈ queue, q ∈ balloons :=
        fun q hq2 => hq q (List.mem_cons_of_mem _ hq2)
      rw [expandLoop]
      by_cases hc : current.id ∈ st.clustered
      · rw [if_pos hc]
        exact ih queue st hqtail ⟨h1, h2, h3, h4, h5, h6, h7⟩
      · rw [if_neg hc]
        have hnodup : (current.id :: st.clustered).Nodup := List.nodup_cons.mpr ⟨hc, h1⟩
        have hids : ∀ i ∈ current.id :: st.clustered, i ∈ balloons.map QBalloon.id := by
          intro i hi
          rcases List.mem_cons.mp hi with rfl | hi
          · exact List.mem_map.mpr ⟨current, hcur, rfl⟩
          · exact h3 i hi
        have hclusterSub : ∀ b ∈ st.cluster ++ [current], b.id ∈ current.id :: st.clustered := by
          intro b hb
          rcases List.mem_append.mp hb with hb | hb
          · exact List.mem_cons_of_mem _ (h4 b hb)
          · rw [List.mem_singleton.mp hb]
            exact List.mem_cons_self _ _
        have hclusterNodup : ((st.cluster ++ [current]).map QBalloon.id).Nodup := by
          rw [List.map_append]
          refine List.Nodup.append h5 (List.nodup_singleton _) ?_
          intro i hi hj
          rw [List.map_singleton, List.mem_singleton] at hj
          subst hj
          obtain ⟨b, hb, hbid⟩ := List.mem_map.mp hi
          exact hc (hbid ▸ h4 b hb)
        have hC0sub : ∀ i ∈ C0, i ∈ current.id :: st.clustered :=
          fun i hi => List.mem_cons_of_mem _ (h6 i hi)
        have hclusterC0 : ∀ b ∈ st.cluster ++ [current], b.id ∉ C0 := by
          intro b hb
          rcases List.mem_append.mp hb with hb | hb
          · exact h7 b hb
          · rw [List.mem_singleton.mp hb]
            intro hbc
            exact hc (h6 _ hbc)
        by_cases hv : current.id ∈ st.visited
        · rw [if_pos hv]
          refine ih queue _ hqtail ⟨hnodup, ?_, hids, hclusterSub, hclusterNodup, hC0sub, hclusterC0⟩
          intro i hi
          rcases List.mem_cons.mp hi with rfl | hi
          · exact hv
          · exact h2 i hi
        · rw [if_neg hv]
          have hvis : ∀ i ∈ current.id :: st.clustered, i ∈ current.id :: st.visited := by
            intro i hi
            rcases List.mem_cons.mp hi with rfl | hi
            · exact List.mem_cons_self _ _
            · exact List.mem_cons_of_mem _ (h2 i hi)
          by_cases hcore : minPts ≤ (getNeighbors near balloons current).length
          · rw [if_pos hcore]
            refine ih (queue ++ getNeighbors near balloons current) _ ?_
              ⟨hnodup, hvis, hids, hclusterSub, hclusterNodup, hC0sub, hclusterC0⟩
            intro q hq2
            rcases List.mem_append.mp hq2 with hq2 | hq2
            · exact hqtail q hq2
            · exact getNeighbors_subset near balloons current q hq2
          · rw [if_neg hcore]
            exact ih queue _ hqtail
              ⟨hnodup, hvis, hids, hclusterSub, hclusterNodup, hC0sub, hclusterC0⟩

end AnalyticsQ

namespace AnalyticsQ

lemma detectLoop_inv (near : QBalloon → QBalloon → Bool) (balloons : List QBalloon)
    (minPts fuel : ℕ) :
    ∀ (rest : List QBalloon) (st : DetSt),
      (∀ b ∈ rest, b ∈ balloons) → DetInv balloons st →
      DetInv balloons (detectLoop near balloons minPts fuel rest st) := by
  intro rest
  induction rest with
  | nil =>
    intro st _ hI
    rw [detectLoop]
    exact hI
  | cons b rest ih =>
    intro st hrest hI
    obtain ⟨h1, h2, h3, h4, h5, h6⟩ := hI
    have hb : b ∈ balloons := hrest b (List.mem_cons_self _ _)
    have hrtail : ∀ x ∈ rest, x ∈ balloons :=
      fun x hx => hrest x (List.mem_cons_of_mem _ hx)
    rw [detectLoop]
    by_cases hv : b.id ∈ st.visited
    · rw [if_pos hv]
      exact ih st hrtail ⟨h1, h2, h3, h4, h5, h6⟩
    · rw [if_neg hv]
      have hbnotc : b.id ∉ st.clustered := fun hbc => hv (h2 _ hbc)
      by_cases hcore : minPts ≤ (getNeighbors near balloons b).length
      · rw [if_pos hcore]
        have hexp := expandLoop_inv near balloons minPts st.clustered fuel
          (getNeighbors near balloons b) ⟨b.id :: st.visited, b.id :: st.clustered, [b]⟩
          (getNeighbors_subset near balloons b)
          ⟨List.nodup_cons.mpr ⟨hbnotc, h1⟩,
            by
              intro i hi
              rcases List.mem_cons.mp hi with rfl | hi
              · exact List.mem_cons_self _ _
              · exact List.mem_cons_of_mem _ (h2 i hi),
            by
              intro i hi
              rcases List.mem_cons.mp hi with rfl | hi
              · exact List.mem_map.mpr ⟨b, hb, rfl⟩
              · exact h3 i hi,
            by
              intro x hx
              rw [List.mem_singleton.mp hx]
              exact List.mem_cons_self _ _,
            by simp,
            fun i hi => List.mem_cons_of_mem _ hi,
            by
              intro x hx
              rw [List.mem_singleton.mp hx]
              exact hbnotc⟩
        set est := expandLoop near balloons minPts fuel (getNeighbors near balloons b)
          ⟨b.id :: st.visited, b.id :: st.clustered, [b]⟩ with hest
        obtain ⟨e1, e2, e3, e4, e5, e6, e7⟩ := hexp
        have hbindSub : ∀ i ∈ st.clusters.flatMap (fun c => c.balloons.map QBalloon.id),
            i ∈ est.clustered := fun i hi => e6 i (h5 i hi)
        by_cases hkeep : minPts ≤ est.cluster.length
        · rw [if_pos hkeep]
          refine ih _ hrtail ⟨e1, e2, e3, ?_, ?_, ?_⟩
          · rw [List.flatMap_append]
            simp only [List.flatMap_cons, List.flatMap_nil, List.append_nil]
            refine List.Nodup.append h4 e5 ?_
            intro i hi hj
            obtain ⟨x, hx, hxid⟩ := List.mem_map.mp hj
            exact e7 x hx (hxid ▸ h5 i hi)
          · intro i hi
            rw [List.flatMap_append] at hi
            rcases List.mem_append.mp hi with hi | hi
            · exact hbindSub i hi
            · simp only [List.flatMap_cons, List.flatMap_nil, List.append_nil] at hi
              obtain ⟨x, hx, hxid⟩ := List.mem_map.mp hi
              exact hxid ▸ e4 x hx
          · intro c hc
            rcases List.mem_append.mp hc with hc | hc
            · exact h6 c hc
            · rw [List.mem_singleton.mp hc]
        · rw [if_neg hkeep]
          exact ih _ hrtail ⟨e1, e2, e3, h4, hbindSub, h6⟩
      · rw [if_neg hcore]
        refine ih _ hrtail ⟨h1, ?_, h3, h4, h5, h6⟩
        intro i hi
        exact List.mem_cons_of_mem _ (h2 i hi)

end AnalyticsQ

namespace AnalyticsQ

/-- C1: for every input balloon list and every parameter setting (the
distance test `near` covers every eps/altitudeWeight, `minPts` is
arbitrary), the clusters returned by the DBSCAN detector are pairwise
disjoint, no balloon id appears twice within one cluster's member list,
and the sum of all cluster counts is at most the number of input
balloons. -/
theorem detectClusters_disjoint (near : QBalloon → QBalloon → Bool) (minPts : ℕ)
    (balloons : List QBalloon) :
    (∀ c ∈ detectClusters near minPts balloons, (c.balloons.map QBalloon.id).Nodup) ∧
    List.Pairwise
      (fun c1 c2 => (c1.balloons.map QBalloon.id).Disjoint (c2.balloons.map QBalloon.id))
      (detectClusters near minPts balloons) ∧
    ((detectClusters near minPts balloons).map Cluster.count).sum ≤ balloons.length := by
  have hInv := detectLoop_inv near balloons minPts
    ((balloons.length + 1) * (balloons.length + 1)) balloons ⟨[], [], []⟩
    (fun b hb => hb)
    ⟨List.nodup_nil, by simp, by simp, by simp, by simp, by simp⟩
  set final := detectLoop near balloons minPts
    ((balloons.length + 1) * (balloons.length + 1)) balloons ⟨[], [], []⟩ with hfinal
  obtain ⟨f1, f2, f3, f4, f5, f6⟩ := hInv
  have hclusters : detectClusters near minPts balloons = final.clusters := rfl
  have hper := List.nodup_flatMap.mp f4
  refine ⟨?_, ?_, ?_⟩
  · rw [hclusters]
    exact hper.1
  · rw [hclusters]
    have hpw := hper.2
    exact List.Pairwise.imp (fun h => h) hpw
  · rw [hclusters]
    have hcounts : (final.clusters.map Cluster.count).sum =
        (final.clusters.map (fun c => (c.balloons.map QBalloon.id).length)).sum := by
      have : ∀ c ∈ final.clusters, Cluster.count c = (c.balloons.map QBalloon.id).length := by
        intro c hc
        rw [List.length_map]
        exact f6 c hc
      exact congrArg List.sum (List.map_congr_left this)
    rw [hcounts]
    have hlen : (final.clusters.map (fun c => (c.balloons.map QBalloon.id).length)).sum =
        (final.clusters.flatMap (fun c => c.balloons.map QBalloon.id)).length := by
      rw [List.length_flatMap]
      congr 1
    rw [hlen]
    have hsub : ∀ i ∈ final.clusters.flatMap (fun c => c.balloons.map QBalloon.id),
        i ∈ balloons.map QBalloon.id := fun i hi => f3 i (f5 i hi)
    calc (final.clusters.flatMap (fun c => c.balloons.map QBalloon.id)).length
        = (final.clusters.flatMap (fun c => c.balloons.map QBalloon.id)).toFinset.card :=
          (List.toFinset_card_of_nodup f4).symm
      _ ≤ (balloons.map QBalloon.id).toFinset.card := by
          apply Finset.card_le_card
          intro i hi
          rw [List.mem_toFinset] at hi
          rw [List.mem_toFinset]
          exact hsub i hi
      _ ≤ (balloons.map QBalloon.id).length := List.toFinset_card_le _
      _ = balloons.length := List.length_map _ _

end AnalyticsQ
